import Mathlib

/-!
Verification of the hospital-staff directory backend (FastAPI + SQLAlchemy).

The embedding models the four ORM tables of database.py as lists of rows
inside a store value `DB`, and each HTTP handler of main.py as a pure
function from a store and a parsed request body to either an `HTTPError`
(the HTTPException the handler raises, or the status the framework
produces) or a triple of the new store, the success status code declared
on the route decorator, and the response value shaped by the declared
response model.  An `Except.error` result corresponds to a request that
performed no store mutation.

External collaborators are modelled by their documented contracts: the
SQLite store assigns integer identities as max rowid plus one and appends
rows in rowid order; pydantic rejects a body missing a required field with
status 422 before the handler runs; Python truthiness makes both None and
0 falsy in an `if fk:` guard; the SQLAlchemy session, when a parent row is
deleted under the default relationship cascade, first de-associates loaded
dependent rows by setting their foreign key column to NULL; and the store
level UNIQUE constraint on doctors.user_id makes a commit that would
duplicate a non-NULL user_id fail, surfacing as HTTP 500 with no mutation.
-/

deriving instance DecidableEq for Except

namespace HMS

/-- Stored row of the hospitals table (database.py, class Hospital). -/
structure HospitalRow where
  id : Int
  name : String
  address : String
  created_at : Nat
deriving DecidableEq

/-- Stored row of the roles table (database.py, class Role). -/
structure RoleRow where
  id : Int
  role_name : String
  permissions : String
  hospital_id : Option Int
deriving DecidableEq

/-- Stored row of the users table (database.py, class User). -/
structure UserRow where
  id : Int
  username : String
  full_name : String
  email : String
  hashed_password : String
  role_id : Option Int
deriving DecidableEq

/-- Stored row of the doctors table (database.py, class Doctor).  The
user_id and hospital_id columns are nullable at the store level (no
nullable=False in the schema), and the ORM default cascade sets them to
NULL when the referenced parent row is deleted. -/
structure DoctorRow where
  id : Int
  user_id : Option Int
  hospital_id : Option Int
  specialty : String
  short_bio : Option String
deriving DecidableEq

/-- The relational store: the four tables plus the store clock consulted by
the created_at column default.  Rows are kept in physical rowid order, so
inserts append at the end. -/
structure DB where
  hospitals : List HospitalRow
  roles : List RoleRow
  users : List UserRow
  doctors : List DoctorRow
  now : Nat
deriving DecidableEq

/-- HTTP failure: the status code and detail of a raised HTTPException, or
of the response the framework produces for a structural validation error or
a store integrity error. -/
structure HTTPError where
  status_code : Nat
  detail : String
deriving DecidableEq

/-- SQLite assigns a fresh integer primary key as the maximum existing
rowid plus one (one on an empty table). -/
def maxId (ids : List Int) : Int := ids.foldr max 0

def nextHospitalId (db : DB) : Int := maxId (db.hospitals.map (fun h => h.id)) + 1

def nextRoleId (db : DB) : Int := maxId (db.roles.map (fun r => r.id)) + 1

def nextUserId (db : DB) : Int := maxId (db.users.map (fun u => u.id)) + 1

def nextDoctorId (db : DB) : Int := maxId (db.doctors.map (fun d => d.id)) + 1

/-- Python truthiness of an optional integer field: None and 0 are both
falsy, every other integer is truthy. -/
def intTruthy (o : Option Int) : Bool :=
  match o with
  | none => false
  | some v => v != 0

/-- Stand-in for the external password hashing primitive pwd_context.hash
(passlib bcrypt), which the spec treats as a black box.  Modelled as a
deterministic tagging function: the claims depend only on where the hash is
computed and stored, never on its value. -/
def get_password_hash (password : String) : String := "$2b$" ++ password

/-- query(Hospital).filter(Hospital.id == i).first() -/
def findHospitalById (db : DB) (i : Int) : Option HospitalRow :=
  db.hospitals.find? (fun h => h.id == i)

/-- query(Role).filter(Role.id == i).first() -/
def findRoleById (db : DB) (i : Int) : Option RoleRow :=
  db.roles.find? (fun r => r.id == i)

/-- query(User).filter(User.id == i).first() -/
def findUserById (db : DB) (i : Int) : Option UserRow :=
  db.users.find? (fun u => u.id == i)

/-- query(Doctor).filter(Doctor.id == i).first() -/
def findDoctorById (db : DB) (i : Int) : Option DoctorRow :=
  db.doctors.find? (fun d => d.id == i)

/-- Lazy relationship load through an optional foreign key: None when the
key is NULL or dangling. -/
def hospitalOfFK (db : DB) (fk : Option Int) : Option HospitalRow :=
  match fk with
  | none => none
  | some v => findHospitalById db v

/-- Lazy relationship load of user.role. -/
def roleOfFK (db : DB) (fk : Option Int) : Option RoleRow :=
  match fk with
  | none => none
  | some v => findRoleById db v

/-- Lazy relationship load of doctor.user. -/
def userOfFK (db : DB) (fk : Option Int) : Option UserRow :=
  match fk with
  | none => none
  | some v => findUserById db v

/-- Request body of POST and PUT on hospitals (pydantic HospitalCreate). -/
structure HospitalCreate where
  name : String
  address : String
deriving DecidableEq

/-- Request body of POST and PUT on roles (pydantic RoleCreate). -/
structure RoleCreate where
  role_name : String
  permissions : String
  hospital_id : Option Int
deriving DecidableEq

/-- Parsed pydantic UserCreate model: username, full_name, email and
password are required fields; role_id is optional with default None.  The
flag role_id_in_payload records whether the role_id key was present in the
request body: this is the pydantic fields-set information consulted by
dict with exclude_unset=True in the user update handler. -/
structure UserCreate where
  username : String
  full_name : String
  email : String
  role_id : Option Int
  role_id_in_payload : Bool
  password : String
deriving DecidableEq

/-- Request body of POST and PUT on doctors (pydantic DoctorCreate). -/
structure DoctorCreate where
  user_id : Int
  hospital_id : Int
  specialty : String
  short_bio : Option String
deriving DecidableEq

/-- Raw JSON body for the user endpoints, before pydantic validation: each
key may be absent.  For role_id, present-with-null and absent are
distinguished, because exclude_unset distinguishes them. -/
structure UserPayload where
  username : Option String
  full_name : Option String
  email : Option String
  password : Option String
  role_id_present : Bool
  role_id : Option Int
deriving DecidableEq

/-- Pydantic structural validation of a UserCreate body: a missing required
field is rejected with status 422 before the handler runs. -/
def parseUserCreate (p : UserPayload) : Except HTTPError UserCreate :=
  match p.username, p.full_name, p.email, p.password with
  | some un, some fn, some em, some pw =>
    .ok ⟨un, fn, em, if p.role_id_present then p.role_id else none, p.role_id_present, pw⟩
  | _, _, _, _ => .error ⟨422, "Unprocessable Entity"⟩

/-- Response model HospitalResponse. -/
structure HospitalResponse where
  id : Int
  name : String
  address : String
  created_at : Nat
deriving DecidableEq

/-- Response model RoleResponse. -/
structure RoleResponse where
  id : Int
  role_name : String
  permissions : String
  hospital_id : Option Int
  hospital_name : Option String
deriving DecidableEq

/-- Response model UserResponse: it has no password or hashed_password
field, so serialization through it never exposes either. -/
structure UserResponse where
  id : Int
  username : String
  full_name : String
  email : String
  role_id : Option Int
  role_name : Option String
deriving DecidableEq

/-- Response model DoctorResponse. -/
structure DoctorResponse where
  id : Int
  user_id : Int
  hospital_id : Int
  specialty : String
  short_bio : Option String
  username : Option String
  full_name : Option String
  hospital_name : Option String
deriving DecidableEq

def hospitalToResponse (h : HospitalRow) : HospitalResponse :=
  ⟨h.id, h.name, h.address, h.created_at⟩

/-- Role response decoration: hospital_name is populated from the loaded
relationship when present, and left at its pydantic default None
otherwise. -/
def roleToResponse (db : DB) (r : RoleRow) : RoleResponse :=
  ⟨r.id, r.role_name, r.permissions, r.hospital_id,
   (hospitalOfFK db r.hospital_id).map (fun h => h.name)⟩

/-- User response decoration: role_name from the loaded relationship. -/
def userToResponse (db : DB) (u : UserRow) : UserResponse :=
  ⟨u.id, u.username, u.full_name, u.email, u.role_id,
   (roleOfFK db u.role_id).map (fun r => r.role_name)⟩

/-- Doctor read decoration: the handlers access doctor.user.username and
doctor.hospital.name without a None check, so a missing relationship raises
AttributeError, which the framework surfaces as HTTP 500. -/
def doctorToResponse (db : DB) (d : DoctorRow) : Except HTTPError DoctorResponse :=
  match d.user_id, d.hospital_id with
  | some uid, some hid =>
    match findUserById db uid, findHospitalById db hid with
    | some u, some h =>
      .ok ⟨d.id, uid, hid, d.specialty, d.short_bio,
           some u.username, some u.full_name, some h.name⟩
    | _, _ => .error ⟨500, "Internal Server Error"⟩
  | _, _ => .error ⟨500, "Internal Server Error"⟩

/-- POST /hospitals/ (main.py create_hospital). -/
def create_hospital (db : DB) (hospital : HospitalCreate) :
    Except HTTPError (DB × Nat × HospitalResponse) :=
  if (db.hospitals.find? (fun h => h.name == hospital.name)).isSome then
    .error ⟨400, "Hospital with this name already exists"⟩
  else
    let row : HospitalRow := ⟨nextHospitalId db, hospital.name, hospital.address, db.now⟩
    let db2 : DB := { db with hospitals := db.hospitals ++ [row] }
    .ok (db2, 201, hospitalToResponse row)

/-- GET /hospitals/ (main.py read_hospitals): offset skip, limit limit. -/
def read_hospitals (db : DB) (skip limit : Nat) : List HospitalResponse :=
  ((db.hospitals.drop skip).take limit).map hospitalToResponse

/-- GET /hospitals/id (main.py read_hospital). -/
def read_hospital (db : DB) (hospital_id : Int) :
    Except HTTPError (Nat × HospitalResponse) :=
  match findHospitalById db hospital_id with
  | none => .error ⟨404, "Hospital not found"⟩
  | some h => .ok (200, hospitalToResponse h)

/-- PUT /hospitals/id (main.py update_hospital): duplicate-name check only
when the name changes; every field of the body is applied; created_at is
not in the body and is left untouched. -/
def update_hospital (db : DB) (hospital_id : Int) (hospital : HospitalCreate) :
    Except HTTPError (DB × Nat × HospitalResponse) :=
  match findHospitalById db hospital_id with
  | none => .error ⟨404, "Hospital not found"⟩
  | some db_hospital =>
    if hospital.name != db_hospital.name &&
        (db.hospitals.find? (fun h => h.name == hospital.name)).isSome then
      .error ⟨400, "Hospital with this name already exists"⟩
    else
      let row : HospitalRow :=
        { db_hospital with name := hospital.name, address := hospital.address }
      let hospitals2 := db.hospitals.map
        (fun h => if h.id == db_hospital.id then
          { h with name := hospital.name, address := hospital.address } else h)
      let db2 : DB := { db with hospitals := hospitals2 }
      .ok (db2, 200, hospitalToResponse row)

/-- DELETE /hospitals/id (main.py delete_hospital).  session.delete on the
Hospital, under the default relationship cascade, de-associates the loaded
dependents before the DELETE: the flush sets roles.hospital_id and
doctors.hospital_id to NULL on the rows that referenced the deleted
hospital, then deletes the hospital row.  The route decorator declares
status 204, so the success body is empty on the wire. -/
def delete_hospital (db : DB) (hospital_id : Int) :
    Except HTTPError (DB × Nat × String) :=
  match findHospitalById db hospital_id with
  | none => .error ⟨404, "Hospital not found"⟩
  | some h =>
    let roles2 := db.roles.map
      (fun r => if r.hospital_id == some h.id then { r with hospital_id := none } else r)
    let doctors2 := db.doctors.map
      (fun d => if d.hospital_id == some h.id then { d with hospital_id := none } else d)
    let hospitals2 := db.hospitals.filter (fun x => x.id != h.id)
    .ok ({ db with hospitals := hospitals2, roles := roles2, doctors := doctors2 },
         204, "Hospital deleted successfully")

/-- POST /roles/ (main.py create_role): the existence check on hospital_id
runs only when the value is Python-truthy. -/
def create_role (db : DB) (role : RoleCreate) :
    Except HTTPError (DB × Nat × RoleResponse) :=
  if intTruthy role.hospital_id && (hospitalOfFK db role.hospital_id).isNone then
    .error ⟨404, "Hospital not found"⟩
  else
    let row : RoleRow := ⟨nextRoleId db, role.role_name, role.permissions, role.hospital_id⟩
    let db2 : DB := { db with roles := db.roles ++ [row] }
    .ok (db2, 201, roleToResponse db2 row)

/-- GET /roles/ (main.py read_roles). -/
def read_roles (db : DB) (skip limit : Nat) : List RoleResponse :=
  ((db.roles.drop skip).take limit).map (roleToResponse db)

/-- GET /roles/id (main.py read_role). -/
def read_role (db : DB) (role_id : Int) : Except HTTPError (Nat × RoleResponse) :=
  match findRoleById db role_id with
  | none => .error ⟨404, "Role not found"⟩
  | some r => .ok (200, roleToResponse db r)

/-- PUT /roles/id (main.py update_role): truthiness-guarded reference
check, then full replacement of every body field. -/
def update_role (db : DB) (role_id : Int) (role : RoleCreate) :
    Except HTTPError (DB × Nat × RoleResponse) :=
  match findRoleById db role_id with
  | none => .error ⟨404, "Role not found"⟩
  | some db_role =>
    if intTruthy role.hospital_id && (hospitalOfFK db role.hospital_id).isNone then
      .error ⟨404, "Hospital not found"⟩
    else
      let row : RoleRow := ⟨db_role.id, role.role_name, role.permissions, role.hospital_id⟩
      let roles2 := db.roles.map (fun r2 => if r2.id == db_role.id then row else r2)
      let db2 : DB := { db with roles := roles2 }
      .ok (db2, 200, roleToResponse db2 row)

/-- DELETE /roles/id (main.py delete_role): default cascade de-associates
dependent users by setting users.role_id to NULL. -/
def delete_role (db : DB) (role_id : Int) : Except HTTPError (DB × Nat × String) :=
  match findRoleById db role_id with
  | none => .error ⟨404, "Role not found"⟩
  | some r =>
    let users2 := db.users.map
      (fun u => if u.role_id == some r.id then { u with role_id := none } else u)
    let roles2 := db.roles.filter (fun x => x.id != r.id)
    .ok ({ db with roles := roles2, users := users2 }, 204, "Role deleted successfully")

/-- POST /users/ (main.py create_user): username uniqueness, then email
uniqueness, then the truthiness-guarded role reference check; the password
is hashed and stored as hashed_password. -/
def create_user (db : DB) (user : UserCreate) :
    Except HTTPError (DB × Nat × UserResponse) :=
  if (db.users.find? (fun u => u.username == user.username)).isSome then
    .error ⟨400, "Username already registered"⟩
  else if (db.users.find? (fun u => u.email == user.email)).isSome then
    .error ⟨400, "Email already registered"⟩
  else if intTruthy user.role_id && (roleOfFK db user.role_id).isNone then
    .error ⟨404, "Role not found"⟩
  else
    let row : UserRow := ⟨nextUserId db, user.username, user.full_name, user.email,
      get_password_hash user.password, user.role_id⟩
    let db2 : DB := { db with users := db.users ++ [row] }
    .ok (db2, 201, userToResponse db2 row)

/-- GET /users/ (main.py read_users). -/
def read_users (db : DB) (skip limit : Nat) : List UserResponse :=
  ((db.users.drop skip).take limit).map (userToResponse db)

/-- GET /users/id (main.py read_user). -/
def read_user (db : DB) (user_id : Int) : Except HTTPError (Nat × UserResponse) :=
  match findUserById db user_id with
  | none => .error ⟨404, "User not found"⟩
  | some u => .ok (200, userToResponse db u)

/-- PUT /users/id (main.py update_user), on the already parsed body:
duplicate checks only for a changed username or email, truthiness-guarded
role reference check, then application of dict(exclude_unset=True):
username, full_name and email are required so always present and applied;
role_id is applied only when its key was in the payload; a truthy
(non-empty) password is hashed into hashed_password, a falsy (empty) one
leaves hashed_password untouched. -/
def update_user (db : DB) (user_id : Int) (user : UserCreate) :
    Except HTTPError (DB × Nat × UserResponse) :=
  match findUserById db user_id with
  | none => .error ⟨404, "User not found"⟩
  | some db_user =>
    if user.username != db_user.username &&
        (db.users.find? (fun u => u.username == user.username)).isSome then
      .error ⟨400, "Username already registered"⟩
    else if user.email != db_user.email &&
        (db.users.find? (fun u => u.email == user.email)).isSome then
      .error ⟨400, "Email already registered"⟩
    else if intTruthy user.role_id && (roleOfFK db user.role_id).isNone then
      .error ⟨404, "Role not found"⟩
    else
      let row : UserRow :=
        { db_user with
          username := user.username,
          full_name := user.full_name,
          email := user.email,
          role_id := if user.role_id_in_payload then user.role_id else db_user.role_id,
          hashed_password := if user.password != "" then get_password_hash user.password
            else db_user.hashed_password }
      let users2 := db.users.map (fun u => if u.id == db_user.id then row else u)
      let db2 : DB := { db with users := users2 }
      .ok (db2, 200, userToResponse db2 row)

/-- PUT /users/id as reached over HTTP: pydantic validation of the raw
body, then the handler. -/
def update_user_endpoint (db : DB) (user_id : Int) (p : UserPayload) :
    Except HTTPError (DB × Nat × UserResponse) :=
  match parseUserCreate p with
  | .error e => .error e
  | .ok user => update_user db user_id user

/-- DELETE /users/id (main.py delete_user): default cascade de-associates
the dependent doctor row by setting doctors.user_id to NULL. -/
def delete_user (db : DB) (user_id : Int) : Except HTTPError (DB × Nat × String) :=
  match findUserById db user_id with
  | none => .error ⟨404, "User not found"⟩
  | some u =>
    let doctors2 := db.doctors.map
      (fun d => if d.user_id == some u.id then { d with user_id := none } else d)
    let users2 := db.users.filter (fun x => x.id != u.id)
    .ok ({ db with users := users2, doctors := doctors2 }, 204, "User deleted successfully")

/-- POST /doctors/ (main.py create_doctor): user existence, hospital
existence, then the one-doctor-per-user check; the response is decorated
from the referenced user and hospital. -/
def create_doctor (db : DB) (doctor : DoctorCreate) :
    Except HTTPError (DB × Nat × DoctorResponse) :=
  match findUserById db doctor.user_id with
  | none => .error ⟨404, "User not found"⟩
  | some user =>
    match findHospitalById db doctor.hospital_id with
    | none => .error ⟨404, "Hospital not found"⟩
    | some hospital =>
      if (db.doctors.find? (fun d => d.user_id == some doctor.user_id)).isSome then
        .error ⟨400, "User already has a doctor profile"⟩
      else
        let row : DoctorRow := ⟨nextDoctorId db, some doctor.user_id,
          some doctor.hospital_id, doctor.specialty, doctor.short_bio⟩
        let db2 : DB := { db with doctors := db.doctors ++ [row] }
        .ok (db2, 201, ⟨row.id, doctor.user_id, doctor.hospital_id, doctor.specialty,
          doctor.short_bio, some user.username, some user.full_name, some hospital.name⟩)

/-- Decoration loop of GET /doctors/: the first row whose relationship
access raises aborts the whole request. -/
def decorateDoctors (db : DB) : List DoctorRow → Except HTTPError (List DoctorResponse)
  | [] => .ok []
  | d :: ds =>
    match doctorToResponse db d, decorateDoctors db ds with
    | .ok r, .ok rs => .ok (r :: rs)
    | .error e, _ => .error e
    | _, .error e => .error e

/-- GET /doctors/ (main.py read_doctors). -/
def read_doctors (db : DB) (skip limit : Nat) :
    Except HTTPError (List DoctorResponse) :=
  decorateDoctors db ((db.doctors.drop skip).take limit)

/-- GET /doctors/id (main.py read_doctor). -/
def read_doctor (db : DB) (doctor_id : Int) :
    Except HTTPError (Nat × DoctorResponse) :=
  match findDoctorById db doctor_id with
  | none => .error ⟨404, "Doctor not found"⟩
  | some d =>
    match doctorToResponse db d with
    | .error e => .error e
    | .ok r => .ok (200, r)

/-- PUT /doctors/id (main.py update_doctor).  The handler does not itself
re-check the one-doctor-per-user rule, but doctors.user_id carries a store
level UNIQUE constraint (database.py); a commit that would duplicate a
non-NULL user_id raises IntegrityError, surfacing as HTTP 500 with the
transaction discarded. -/
def update_doctor (db : DB) (doctor_id : Int) (doctor : DoctorCreate) :
    Except HTTPError (DB × Nat × DoctorResponse) :=
  match findDoctorById db doctor_id with
  | none => .error ⟨404, "Doctor not found"⟩
  | some db_doctor =>
    match findUserById db doctor.user_id with
    | none => .error ⟨404, "User not found"⟩
    | some user =>
      match findHospitalById db doctor.hospital_id with
      | none => .error ⟨404, "Hospital not found"⟩
      | some hospital =>
        if (db.doctors.find?
            (fun d => d.id != db_doctor.id && d.user_id == some doctor.user_id)).isSome then
          .error ⟨500, "Internal Server Error"⟩
        else
          let row : DoctorRow := ⟨db_doctor.id, some doctor.user_id,
            some doctor.hospital_id, doctor.specialty, doctor.short_bio⟩
          let doctors2 := db.doctors.map (fun d => if d.id == db_doctor.id then row else d)
          let db2 : DB := { db with doctors := doctors2 }
          .ok (db2, 200, ⟨row.id, doctor.user_id, doctor.hospital_id, doctor.specialty,
            doctor.short_bio, some user.username, some user.full_name, some hospital.name⟩)

/-- DELETE /doctors/id (main.py delete_doctor): the doctor row holds the
foreign keys itself, so the delete removes just that row. -/
def delete_doctor (db : DB) (doctor_id : Int) : Except HTTPError (DB × Nat × String) :=
  match findDoctorById db doctor_id with
  | none => .error ⟨404, "Doctor not found"⟩
  | some d =>
    .ok ({ db with doctors := db.doctors.filter (fun x => x.id != d.id) },
         204, "Doctor deleted successfully")

/-- The empty store, as created by Base.metadata.create_all on a fresh
database file. -/
def emptyDB : DB := ⟨[], [], [], [], 0⟩

end HMS

namespace HMS

/-! Fixture stores used by the witness theorems. -/

/-- Store holding one hospital, as produced by a create on the empty store. -/
def dbH : DB := ⟨[⟨1, "A", "addr", 0⟩], [], [], [], 0⟩

/-- Store holding one hospital and one role scoped to it. -/
def dbHR : DB := ⟨[⟨1, "A", "addr", 0⟩], [⟨1, "r", "p", some 1⟩], [], [], 0⟩

/-- Store holding one user. -/
def dbU : DB := ⟨[], [], [⟨1, "bob", "Bob B", "b(at)x", "$2b$pw", none⟩], [], 0⟩

/-- Store holding one hospital and one user. -/
def dbUH : DB := ⟨[⟨1, "A", "addr", 0⟩], [], [⟨1, "bob", "Bob B", "b(at)x", "$2b$pw", none⟩], [], 0⟩

/-- Store holding one hospital, one user and the doctor profile of that user. -/
def dbUHD : DB :=
  ⟨[⟨1, "A", "addr", 0⟩], [], [⟨1, "bob", "Bob B", "b(at)x", "$2b$pw", none⟩],
   [⟨1, some 1, some 1, "derm", none⟩], 0⟩

/-! General helper lemmas about the store primitives. -/

/-- Every stored identity is bounded by the running maximum. -/
theorem le_maxId (ids : List Int) (x : Int) (hx : x ∈ ids) : x ≤ maxId ids := by
  induction ids with
  | nil => cases hx
  | cons a t ih =>
    rcases List.mem_cons.mp hx with h | h
    · subst h; exact le_max_left _ _
    · exact le_trans (ih h) (le_max_right _ _)

/-- A freshly assigned identity matches no stored row. -/
theorem find?_fresh_none {α : Type} (f : α → Int) (l : List α) (v : Int)
    (hv : maxId (l.map f) < v) : l.find? (fun x => f x == v) = none := by
  rw [List.find?_eq_none]
  intro x hx
  have hb := le_maxId (l.map f) (f x) (List.mem_map_of_mem f hx)
  simp only [beq_iff_eq]
  omega

/-- Looking up the freshly appended row by its fresh identity finds it. -/
theorem find?_fresh_append {α : Type} (f : α → Int) (l : List α) (a : α)
    (ha : f a = maxId (l.map f) + 1) :
    (l ++ [a]).find? (fun x => f x == f a) = some a := by
  rw [List.find?_append, find?_fresh_none f l (f a) (by omega)]
  simp [List.find?]

/-! Inversion and conflict lemmas for the create handlers. -/

/-- Successful hospital creation: no duplicate name was present and the row
was appended with the fresh identity. -/
theorem create_hospital_ok_inv {db : DB} {i : HospitalCreate} {db2 : DB} {c : Nat}
    {r : HospitalResponse} (h : create_hospital db i = .ok (db2, c, r)) :
    db.hospitals.find? (fun x => x.name == i.name) = none ∧
    db2 = { db with hospitals := db.hospitals ++ [⟨nextHospitalId db, i.name, i.address, db.now⟩] } ∧
    c = 201 ∧ r = ⟨nextHospitalId db, i.name, i.address, db.now⟩ := by
  unfold create_hospital at h
  split at h
  · exact absurd h (by simp)
  · rename_i hnone
    simp only [Except.ok.injEq, Prod.mk.injEq] at h
    obtain ⟨h1, h2, h3⟩ := h
    exact ⟨Option.not_isSome_iff_eq_none.mp hnone, h1.symm, h2.symm, h3.symm⟩

/-- A hospital create against a store already containing the name fails
with the duplicate-name conflict. -/
theorem create_hospital_conflict {db : DB} {i : HospitalCreate}
    (hx : ∃ x, x ∈ db.hospitals ∧ x.name = i.name) :
    create_hospital db i = .error ⟨400, "Hospital with this name already exists"⟩ := by
  obtain ⟨x, hmem, hname⟩ := hx
  have hs : (db.hospitals.find? (fun x => x.name == i.name)).isSome := by
    exact List.find?_isSome.mpr ⟨x, hmem, by simp [hname]⟩
  unfold create_hospital
  rw [if_pos hs]

/-- Successful user creation: both uniqueness probes came back empty and
the row was appended with the hashed password and the fresh identity. -/
theorem create_user_ok_inv {db : DB} {i : UserCreate} {db2 : DB} {c : Nat}
    {r : UserResponse} (h : create_user db i = .ok (db2, c, r)) :
    db.users.find? (fun x => x.username == i.username) = none ∧
    db.users.find? (fun x => x.email == i.email) = none ∧
    db2 = { db with users := db.users ++
      [⟨nextUserId db, i.username, i.full_name, i.email, get_password_hash i.password, i.role_id⟩] } ∧
    c = 201 ∧
    r = userToResponse ({ db with users := db.users ++
      [⟨nextUserId db, i.username, i.full_name, i.email, get_password_hash i.password, i.role_id⟩] })
      ⟨nextUserId db, i.username, i.full_name, i.email, get_password_hash i.password, i.role_id⟩ := by
  unfold create_user at h
  split at h
  · exact absurd h (by simp)
  · split at h
    · exact absurd h (by simp)
    · split at h
      · exact absurd h (by simp)
      · rename_i h1 h2 h3
        simp only [Except.ok.injEq, Prod.mk.injEq] at h
        exact ⟨Option.not_isSome_iff_eq_none.mp h1, Option.not_isSome_iff_eq_none.mp h2,
          h.1.symm, h.2.1.symm, h.2.2.symm⟩

/-- A user create against a store already containing the username or the
email fails with status 400: the username probe fires first, and when it
does not, the email probe does. -/
theorem create_user_conflict {db : DB} {i : UserCreate}
    (hx : (∃ x, x ∈ db.users ∧ x.username = i.username) ∨
          (∃ x, x ∈ db.users ∧ x.email = i.email)) :
    ∃ e, create_user db i = .error e ∧ e.status_code = 400 := by
  unfold create_user
  by_cases hu : (db.users.find? (fun x => x.username == i.username)).isSome
  · exact ⟨⟨400, "Username already registered"⟩, by rw [if_pos hu], rfl⟩
  · rcases hx with ⟨x, hmem, hf⟩ | ⟨x, hmem, hf⟩
    · exact absurd (List.find?_isSome.mpr ⟨x, hmem, by simp [hf]⟩) hu
    · have he : (db.users.find? (fun x => x.email == i.email)).isSome :=
        List.find?_isSome.mpr ⟨x, hmem, by simp [hf]⟩
      exact ⟨⟨400, "Email already registered"⟩, by rw [if_neg hu, if_pos he], rfl⟩

/-- Under a predicate that can hold of at most one element (pairwise
exclusion), any member satisfying the predicate is the find? result. -/
theorem find?_unique_match {α : Type} (p : α → Bool) (l : List α) (w u : α)
    (hpair : l.Pairwise (fun a b => ¬(p a = true ∧ p b = true)))
    (hfind : l.find? p = some w) (hu : u ∈ l) (hpu : p u = true) : u = w := by
  induction l with
  | nil => cases hu
  | cons a t ih =>
    rw [List.find?_cons] at hfind
    rcases List.mem_cons.mp hu with rfl | hut
    · rw [hpu] at hfind
      exact (Option.some.injEq _ _ ▸ hfind)
    · by_cases hpa : p a = true
      · exact absurd ⟨hpa, hpu⟩ ((List.pairwise_cons.mp hpair).1 u hut)
      · rw [Bool.not_eq_true] at hpa
        rw [hpa] at hfind
        exact ih (List.pairwise_cons.mp hpair).2 hfind hut

/-- Successful user update: the target was found and the users table is
rewritten by replacing the rows sharing its identity with the merged row:
required fields applied, role_id applied only when its key was present in
the payload, the password hashed into hashed_password only when
non-empty. -/
theorem update_user_ok_inv {db : DB} {user_id : Int} {user : UserCreate} {db2 : DB}
    {c : Nat} {r : UserResponse} (h : update_user db user_id user = .ok (db2, c, r)) :
    ∃ db_user, findUserById db user_id = some db_user ∧
      db2 = { db with users := db.users.map (fun u => if u.id == db_user.id then
        { db_user with
          username := user.username, full_name := user.full_name, email := user.email,
          role_id := if user.role_id_in_payload then user.role_id else db_user.role_id,
          hashed_password := if user.password != "" then get_password_hash user.password
            else db_user.hashed_password } else u) } ∧
      c = 200 := by
  unfold update_user at h
  cases hf : findUserById db user_id with
  | none => rw [hf] at h; exact absurd h (by simp)
  | some db_user =>
    rw [hf] at h
    simp only [] at h
    by_cases c1 : (user.username != db_user.username &&
        (db.users.find? (fun u => u.username == user.username)).isSome) = true
    · rw [if_pos c1] at h; exact absurd h (by simp)
    · rw [if_neg c1] at h
      by_cases c2 : (user.email != db_user.email &&
          (db.users.find? (fun u => u.email == user.email)).isSome) = true
      · rw [if_pos c2] at h; exact absurd h (by simp)
      · rw [if_neg c2] at h
        by_cases c3 : (intTruthy user.role_id && (roleOfFK db user.role_id).isNone) = true
        · rw [if_pos c3] at h; exact absurd h (by simp)
        · rw [if_neg c3] at h
          simp only [Except.ok.injEq, Prod.mk.injEq] at h
          exact ⟨db_user, rfl, h.1.symm, h.2.1.symm⟩

/-- Successful hospital update: the target was found and the hospitals
table is rewritten in place, with the body fields applied and the identity
and created_at untouched. -/
theorem update_hospital_ok_inv {db : DB} {hospital_id : Int} {hospital : HospitalCreate}
    {db2 : DB} {c : Nat} {r : HospitalResponse}
    (h : update_hospital db hospital_id hospital = .ok (db2, c, r)) :
    ∃ w, findHospitalById db hospital_id = some w ∧
      db2 = { db with hospitals := db.hospitals.map (fun x => if x.id == w.id then
        { x with name := hospital.name, address := hospital.address } else x) } ∧
      c = 200 ∧
      r = hospitalToResponse { w with name := hospital.name, address := hospital.address } := by
  unfold update_hospital at h
  cases hf : findHospitalById db hospital_id with
  | none => rw [hf] at h; exact absurd h (by simp)
  | some w =>
    rw [hf] at h
    simp only [] at h
    by_cases hc : (hospital.name != w.name &&
        (db.hospitals.find? (fun x => x.name == hospital.name)).isSome) = true
    · rw [if_pos hc] at h; exact absurd h (by simp)
    · rw [if_neg hc] at h
      simp only [Except.ok.injEq, Prod.mk.injEq] at h
      exact ⟨w, rfl, h.1.symm, h.2.1.symm, h.2.2.symm⟩

/-- Successful hospital delete: the target was found, its row is removed,
and the default cascade nullified the hospital_id of dependent roles and
doctors. -/
theorem delete_hospital_ok_inv {db : DB} {hospital_id : Int} {db2 : DB} {c : Nat}
    {m : String} (h : delete_hospital db hospital_id = .ok (db2, c, m)) :
    ∃ w, findHospitalById db hospital_id = some w ∧
      db2 = { db with
        hospitals := db.hospitals.filter (fun x => x.id != w.id),
        roles := db.roles.map (fun r => if r.hospital_id == some w.id then
          { r with hospital_id := none } else r),
        doctors := db.doctors.map (fun d => if d.hospital_id == some w.id then
          { d with hospital_id := none } else d) } ∧
      c = 204 := by
  unfold delete_hospital at h
  cases hf : findHospitalById db hospital_id with
  | none => rw [hf] at h; exact absurd h (by simp)
  | some w =>
    rw [hf] at h
    simp only [Except.ok.injEq, Prod.mk.injEq] at h
    exact ⟨w, rfl, h.1.symm, h.2.1.symm⟩

/-- Successful role creation: the row was appended with the fresh identity
and the foreign key exactly as supplied. -/
theorem create_role_ok_inv {db : DB} {role : RoleCreate} {db2 : DB} {c : Nat}
    {r : RoleResponse} (h : create_role db role = .ok (db2, c, r)) :
    db2 = { db with roles := db.roles ++
      [⟨nextRoleId db, role.role_name, role.permissions, role.hospital_id⟩] } ∧
    c = 201 ∧
    r = roleToResponse ({ db with roles := db.roles ++
      [⟨nextRoleId db, role.role_name, role.permissions, role.hospital_id⟩] })
      ⟨nextRoleId db, role.role_name, role.permissions, role.hospital_id⟩ := by
  unfold create_role at h
  by_cases hc : (intTruthy role.hospital_id && (hospitalOfFK db role.hospital_id).isNone) = true
  · rw [if_pos hc] at h; exact absurd h (by simp)
  · rw [if_neg hc] at h
    simp only [Except.ok.injEq, Prod.mk.injEq] at h
    exact ⟨h.1.symm, h.2.1.symm, h.2.2.symm⟩

/-- Successful role update: the target was found and replaced in place by
the supplied fields under its old identity. -/
theorem update_role_ok_inv {db : DB} {role_id : Int} {role : RoleCreate} {db2 : DB}
    {c : Nat} {r : RoleResponse} (h : update_role db role_id role = .ok (db2, c, r)) :
    ∃ w, findRoleById db role_id = some w ∧
      db2 = { db with roles := db.roles.map (fun x => if x.id == w.id then
        ⟨w.id, role.role_name, role.permissions, role.hospital_id⟩ else x) } ∧
      c = 200 := by
  unfold update_role at h
  cases hf : findRoleById db role_id with
  | none => rw [hf] at h; exact absurd h (by simp)
  | some w =>
    rw [hf] at h
    simp only [] at h
    by_cases hc : (intTruthy role.hospital_id && (hospitalOfFK db role.hospital_id).isNone) = true
    · rw [if_pos hc] at h; exact absurd h (by simp)
    · rw [if_neg hc] at h
      simp only [Except.ok.injEq, Prod.mk.injEq] at h
      exact ⟨w, rfl, h.1.symm, h.2.1.symm⟩

/-- Successful role delete: the row is removed and the default cascade
nullified the role_id of dependent users. -/
theorem delete_role_ok_inv {db : DB} {role_id : Int} {db2 : DB} {c : Nat} {m : String}
    (h : delete_role db role_id = .ok (db2, c, m)) :
    ∃ w, findRoleById db role_id = some w ∧
      db2 = { db with
        roles := db.roles.filter (fun x => x.id != w.id),
        users := db.users.map (fun u => if u.role_id == some w.id then
          { u with role_id := none } else u) } ∧
      c = 204 := by
  unfold delete_role at h
  cases hf : findRoleById db role_id with
  | none => rw [hf] at h; exact absurd h (by simp)
  | some w =>
    rw [hf] at h
    simp only [Except.ok.injEq, Prod.mk.injEq] at h
    exact ⟨w, rfl, h.1.symm, h.2.1.symm⟩

/-- Successful user delete: the row is removed and the default cascade
nullified the user_id of the dependent doctor row. -/
theorem delete_user_ok_inv {db : DB} {user_id : Int} {db2 : DB} {c : Nat} {m : String}
    (h : delete_user db user_id = .ok (db2, c, m)) :
    ∃ w, findUserById db user_id = some w ∧
      db2 = { db with
        users := db.users.filter (fun x => x.id != w.id),
        doctors := db.doctors.map (fun d => if d.user_id == some w.id then
          { d with user_id := none } else d) } ∧
      c = 204 := by
  unfold delete_user at h
  cases hf : findUserById db user_id with
  | none => rw [hf] at h; exact absurd h (by simp)
  | some w =>
    rw [hf] at h
    simp only [Except.ok.injEq, Prod.mk.injEq] at h
    exact ⟨w, rfl, h.1.symm, h.2.1.symm⟩

/-- Successful doctor creation: the referenced user and hospital exist, no
doctor row referenced the user, and the row was appended. -/
theorem create_doctor_ok_inv {db : DB} {doctor : DoctorCreate} {db2 : DB} {c : Nat}
    {r : DoctorResponse} (h : create_doctor db doctor = .ok (db2, c, r)) :
    ∃ u hosp, findUserById db doctor.user_id = some u ∧
      findHospitalById db doctor.hospital_id = some hosp ∧
      db.doctors.find? (fun d => d.user_id == some doctor.user_id) = none ∧
      db2 = { db with doctors := db.doctors ++ [⟨nextDoctorId db, some doctor.user_id,
        some doctor.hospital_id, doctor.specialty, doctor.short_bio⟩] } ∧
      c = 201 ∧
      r = ⟨nextDoctorId db, doctor.user_id, doctor.hospital_id, doctor.specialty,
        doctor.short_bio, some u.username, some u.full_name, some hosp.name⟩ := by
  unfold create_doctor at h
  cases hu : findUserById db doctor.user_id with
  | none => rw [hu] at h; exact absurd h (by simp)
  | some u =>
    rw [hu] at h
    simp only [] at h
    cases hh : findHospitalById db doctor.hospital_id with
    | none => rw [hh] at h; exact absurd h (by simp)
    | some hosp =>
      rw [hh] at h
      simp only [] at h
      by_cases hc : (db.doctors.find? (fun d => d.user_id == some doctor.user_id)).isSome = true
      · rw [if_pos hc] at h; exact absurd h (by simp)
      · rw [if_neg hc] at h
        simp only [Except.ok.injEq, Prod.mk.injEq] at h
        exact ⟨u, hosp, rfl, rfl, Option.not_isSome_iff_eq_none.mp hc,
          h.1.symm, h.2.1.symm, h.2.2.symm⟩

/-- Successful doctor update: the target, the referenced user and hospital
all exist, no other doctor row holds the new user_id (otherwise the store
UNIQUE constraint fails the commit), and the row is replaced in place. -/
theorem update_doctor_ok_inv {db : DB} {doctor_id : Int} {doctor : DoctorCreate}
    {db2 : DB} {c : Nat} {r : DoctorResponse}
    (h : update_doctor db doctor_id doctor = .ok (db2, c, r)) :
    ∃ w u hosp, findDoctorById db doctor_id = some w ∧
      findUserById db doctor.user_id = some u ∧
      findHospitalById db doctor.hospital_id = some hosp ∧
      db.doctors.find? (fun d => d.id != w.id && d.user_id == some doctor.user_id) = none ∧
      db2 = { db with doctors := db.doctors.map (fun d => if d.id == w.id then
        ⟨w.id, some doctor.user_id, some doctor.hospital_id, doctor.specialty,
         doctor.short_bio⟩ else d) } ∧
      c = 200 := by
  unfold update_doctor at h
  cases hw : findDoctorById db doctor_id with
  | none => rw [hw] at h; exact absurd h (by simp)
  | some w =>
    rw [hw] at h
    simp only [] at h
    cases hu : findUserById db doctor.user_id with
    | none => rw [hu] at h; exact absurd h (by simp)
    | some u =>
      rw [hu] at h
      simp only [] at h
      cases hh : findHospitalById db doctor.hospital_id with
      | none => rw [hh] at h; exact absurd h (by simp)
      | some hosp =>
        rw [hh] at h
        simp only [] at h
        by_cases hc : (db.doctors.find?
            (fun d => d.id != w.id && d.user_id == some doctor.user_id)).isSome = true
        · rw [if_pos hc] at h; exact absurd h (by simp)
        · rw [if_neg hc] at h
          simp only [Except.ok.injEq, Prod.mk.injEq] at h
          exact ⟨w, u, hosp, rfl, rfl, rfl, Option.not_isSome_iff_eq_none.mp hc,
            h.1.symm, h.2.1.symm⟩

/-- Successful doctor delete: the row is removed; the doctor table holds
the foreign keys itself, so nothing else changes. -/
theorem delete_doctor_ok_inv {db : DB} {doctor_id : Int} {db2 : DB} {c : Nat} {m : String}
    (h : delete_doctor db doctor_id = .ok (db2, c, m)) :
    ∃ w, findDoctorById db doctor_id = some w ∧
      db2 = { db with doctors := db.doctors.filter (fun x => x.id != w.id) } ∧
      c = 204 := by
  unfold delete_doctor at h
  cases hf : findDoctorById db doctor_id with
  | none => rw [hf] at h; exact absurd h (by simp)
  | some w =>
    rw [hf] at h
    simp only [Except.ok.injEq, Prod.mk.injEq] at h
    exact ⟨w, rfl, h.1.symm, h.2.1.symm⟩

/-- The one-doctor-per-user invariant, bundled with distinctness of doctor
identities (both hold of every reachable store): no two doctor rows share
an identity, and no two share a non-NULL user_id. -/
def DoctorInv (db : DB) : Prop :=
  db.doctors.Pairwise (fun a b => a.id ≠ b.id ∧ (a.user_id = none ∨ a.user_id ≠ b.user_id))

instance (db : DB) : Decidable (DoctorInv db) := by
  unfold DoctorInv
  infer_instance

/-- Nullifying the user_id of selected rows preserves the doctor
invariant. -/
theorem doctorInv_pairwise_nullify_user (l : List DoctorRow) (wid : Int)
    (hp : l.Pairwise (fun a b => a.id ≠ b.id ∧ (a.user_id = none ∨ a.user_id ≠ b.user_id))) :
    (l.map (fun d => if d.user_id == some wid then { d with user_id := none } else d)).Pairwise
      (fun a b => a.id ≠ b.id ∧ (a.user_id = none ∨ a.user_id ≠ b.user_id)) := by
  rw [List.pairwise_map]
  refine hp.imp ?_
  rintro a b ⟨hid, hus⟩
  by_cases ha : (a.user_id == some wid) = true
  · by_cases hb : (b.user_id == some wid) = true <;> simp [ha, hb, hid]
  · by_cases hb : (b.user_id == some wid) = true
    · refine ⟨by simp [ha, hb, hid], ?_⟩
      rcases hau : a.user_id with _ | v
      · simp [ha, hb, hau]
      · have hv : v ≠ wid := by
          intro hx
          subst hx
          exact ha (by simp [hau])
        have hb2 : b.user_id = some wid := by simpa using hb
        simp [hau, hv, hb2]
    · simp [ha, hb, hid, hus]

/-- Nullifying the hospital_id of selected rows preserves the doctor
invariant: neither identity nor user_id changes. -/
theorem doctorInv_pairwise_nullify_hospital (l : List DoctorRow) (wid : Int)
    (hp : l.Pairwise (fun a b => a.id ≠ b.id ∧ (a.user_id = none ∨ a.user_id ≠ b.user_id))) :
    (l.map (fun d => if d.hospital_id == some wid then { d with hospital_id := none } else d)).Pairwise
      (fun a b => a.id ≠ b.id ∧ (a.user_id = none ∨ a.user_id ≠ b.user_id)) := by
  rw [List.pairwise_map]
  refine hp.imp ?_
  rintro a b ⟨hid, hus⟩
  by_cases ha : (a.hospital_id == some wid) = true <;>
    by_cases hb : (b.hospital_id == some wid) = true <;> simp [ha, hb, hid, hus]

/-- Appending a row with a fresh identity and a user_id shared by no
stored row preserves the doctor invariant. -/
theorem doctorInv_pairwise_append (l : List DoctorRow) (row : DoctorRow) (uid : Int)
    (hruid : row.user_id = some uid)
    (hfresh : ∀ d ∈ l, d.id ≠ row.id)
    (hnone : ∀ d ∈ l, d.user_id ≠ some uid)
    (hp : l.Pairwise (fun a b => a.id ≠ b.id ∧ (a.user_id = none ∨ a.user_id ≠ b.user_id))) :
    (l ++ [row]).Pairwise
      (fun a b => a.id ≠ b.id ∧ (a.user_id = none ∨ a.user_id ≠ b.user_id)) := by
  rw [List.pairwise_append]
  refine ⟨hp, List.pairwise_singleton _ _, ?_⟩
  intro a ha b hb
  rw [List.mem_singleton] at hb
  subst hb
  exact ⟨hfresh a ha, Or.inr (by rw [hruid]; exact hnone a ha)⟩

/-- Replacing the row with a given identity by a row with that identity
and a user_id held by no other row preserves the doctor invariant. -/
theorem doctorInv_pairwise_replace (l : List DoctorRow) (row : DoctorRow) (wid uid : Int)
    (hrid : row.id = wid) (hruid : row.user_id = some uid)
    (hguard : ∀ d ∈ l, d.id = wid ∨ d.user_id ≠ some uid)
    (hp : l.Pairwise (fun a b => a.id ≠ b.id ∧ (a.user_id = none ∨ a.user_id ≠ b.user_id))) :
    (l.map (fun d => if d.id == wid then row else d)).Pairwise
      (fun a b => a.id ≠ b.id ∧ (a.user_id = none ∨ a.user_id ≠ b.user_id)) := by
  rw [List.pairwise_map]
  refine hp.imp_of_mem ?_
  rintro a b ha hb ⟨hid, hus⟩
  by_cases haw : (a.id == wid) = true
  · by_cases hbw : (b.id == wid) = true
    · rw [beq_iff_eq] at haw hbw
      exact absurd (haw.trans hbw.symm) hid
    · have hbid : b.id ≠ wid := by
        intro hx
        exact hbw (beq_iff_eq.mpr hx)
      have hbu : b.user_id ≠ some uid := (hguard b hb).resolve_left hbid
      simp only [haw, hbw, if_true, if_false]
      refine ⟨by rw [hrid]; exact fun hx => hbid hx.symm, Or.inr ?_⟩
      rw [hruid]
      exact fun hx => hbu hx.symm
  · have haid : a.id ≠ wid := fun hx => haw (beq_iff_eq.mpr hx)
    by_cases hbw : (b.id == wid) = true
    · have hau : a.user_id ≠ some uid := (hguard a ha).resolve_left haid
      simp only [haw, hbw, if_true, if_false]
      refine ⟨by rw [hrid]; exact haid, Or.inr ?_⟩
      rw [hruid]
      exact hau
    · simp only [haw, hbw, if_false]
      exact ⟨hid, hus⟩

/-- The doctor list decoration preserves length when it succeeds. -/
theorem decorateDoctors_length (db : DB) (l : List DoctorRow) (res : List DoctorResponse)
    (h : decorateDoctors db l = .ok res) : res.length = l.length := by
  induction l generalizing res with
  | nil =>
    unfold decorateDoctors at h
    simp only [Except.ok.injEq] at h
    subst h
    rfl
  | cons d ds ih =>
    unfold decorateDoctors at h
    cases h1 : doctorToResponse db d with
    | error e => rw [h1] at h; exact absurd h (by simp)
    | ok r =>
      rw [h1] at h
      cases h2 : decorateDoctors db ds with
      | error e => rw [h2] at h; simp only [] at h; exact absurd h (by simp)
      | ok rs =>
        rw [h2] at h
        simp only [Except.ok.injEq] at h
        subst h
        simp [ih rs h2]

/-- A successfully decorated doctor row keeps the identity of the stored
row. -/
theorem doctorToResponse_ok_id {db : DB} {d : DoctorRow} {r : DoctorResponse}
    (h : doctorToResponse db d = .ok r) : r.id = d.id := by
  unfold doctorToResponse at h
  cases hu : d.user_id with
  | none => rw [hu] at h; simp only [] at h; exact absurd h (by simp)
  | some uid =>
    rw [hu] at h
    cases hh : d.hospital_id with
    | none => rw [hh] at h; simp only [] at h; exact absurd h (by simp)
    | some hid =>
      rw [hh] at h
      simp only [] at h
      cases h2 : findUserById db uid with
      | none => rw [h2] at h; simp only [] at h; exact absurd h (by simp)
      | some u =>
        rw [h2] at h
        cases h3 : findHospitalById db hid with
        | none => rw [h3] at h; simp only [] at h; exact absurd h (by simp)
        | some hosp =>
          rw [h3] at h
          simp only [Except.ok.injEq] at h
          subst h
          rfl

/-- Dropping a prefix commutes with the doctor list decoration. -/
theorem decorateDoctors_drop (db : DB) (l : List DoctorRow) (res : List DoctorResponse)
    (h : decorateDoctors db l = .ok res) (n : Nat) :
    decorateDoctors db (l.drop n) = .ok (res.drop n) := by
  induction l generalizing res n with
  | nil =>
    unfold decorateDoctors at h
    simp only [Except.ok.injEq] at h
    subst h
    simp [decorateDoctors]
  | cons d ds ih =>
    unfold decorateDoctors at h
    cases h1 : doctorToResponse db d with
    | error e => rw [h1] at h; simp only [] at h; exact absurd h (by simp)
    | ok r =>
      rw [h1] at h
      cases h2 : decorateDoctors db ds with
      | error e => rw [h2] at h; simp only [] at h; exact absurd h (by simp)
      | ok rs =>
        rw [h2] at h
        simp only [Except.ok.injEq] at h
        subst h
        cases n with
        | zero =>
          unfold decorateDoctors
          simp only [List.drop_zero]
          rw [h1, h2]
        | succ m => simpa using ih rs h2 m

/-- The doctor list decoration preserves the sequence of identities. -/
theorem decorateDoctors_ids (db : DB) (l : List DoctorRow) (res : List DoctorResponse)
    (h : decorateDoctors db l = .ok res) :
    res.map (fun r => r.id) = l.map (fun d => d.id) := by
  induction l generalizing res with
  | nil =>
    unfold decorateDoctors at h
    simp only [Except.ok.injEq] at h
    subst h
    rfl
  | cons d ds ih =>
    unfold decorateDoctors at h
    cases h1 : doctorToResponse db d with
    | error e => rw [h1] at h; simp only [] at h; exact absurd h (by simp)
    | ok r =>
      rw [h1] at h
      cases h2 : decorateDoctors db ds with
      | error e => rw [h2] at h; simp only [] at h; exact absurd h (by simp)
      | ok rs =>
        rw [h2] at h
        simp only [Except.ok.injEq] at h
        subst h
        simp [ih rs h2, doctorToResponse_ok_id h1]

/-- Stored hospital rows in strictly ascending identity (rowid) order: the
shape of every reachable hospitals table. -/
def HospitalsAsc (l : List HospitalRow) : Prop := l.Pairwise (fun a b => a.id < b.id)

instance (l : List HospitalRow) : Decidable (HospitalsAsc l) := by
  unfold HospitalsAsc
  infer_instance

/-- Stored role rows in strictly ascending identity order. -/
def RolesAsc (l : List RoleRow) : Prop := l.Pairwise (fun a b => a.id < b.id)

instance (l : List RoleRow) : Decidable (RolesAsc l) := by
  unfold RolesAsc
  infer_instance

/-- Stored user rows in strictly ascending identity order. -/
def UsersAsc (l : List UserRow) : Prop := l.Pairwise (fun a b => a.id < b.id)

instance (l : List UserRow) : Decidable (UsersAsc l) := by
  unfold UsersAsc
  infer_instance

/-- Stored doctor rows in strictly ascending identity order. -/
def DoctorsAsc (l : List DoctorRow) : Prop := l.Pairwise (fun a b => a.id < b.id)

instance (l : List DoctorRow) : Decidable (DoctorsAsc l) := by
  unfold DoctorsAsc
  infer_instance

/-! Claim theorems. -/

/-- C5: for every entity type, a successful Create followed immediately by
Get on the identity it returned yields status 200 and a decorated row
equal to the one Create returned. -/
theorem create_get_round_trip :
    (∀ (db : DB) (i : HospitalCreate) (db2 : DB) (c : Nat) (r : HospitalResponse),
      create_hospital db i = .ok (db2, c, r) → read_hospital db2 r.id = .ok (200, r)) ∧
    (∀ (db : DB) (i : RoleCreate) (db2 : DB) (c : Nat) (r : RoleResponse),
      create_role db i = .ok (db2, c, r) → read_role db2 r.id = .ok (200, r)) ∧
    (∀ (db : DB) (i : UserCreate) (db2 : DB) (c : Nat) (r : UserResponse),
      create_user db i = .ok (db2, c, r) → read_user db2 r.id = .ok (200, r)) ∧
    (∀ (db : DB) (i : DoctorCreate) (db2 : DB) (c : Nat) (r : DoctorResponse),
      create_doctor db i = .ok (db2, c, r) → read_doctor db2 r.id = .ok (200, r)) := by
  refine ⟨?_, ?_, ?_, ?_⟩
  · intro db i db2 c r h
    obtain ⟨-, hdb2, -, hr⟩ := create_hospital_ok_inv h
    subst hdb2
    subst hr
    have hfind : findHospitalById
        { db with hospitals := db.hospitals ++ [⟨nextHospitalId db, i.name, i.address, db.now⟩] }
        (nextHospitalId db) =
        some ⟨nextHospitalId db, i.name, i.address, db.now⟩ :=
      find?_fresh_append (fun h : HospitalRow => h.id) db.hospitals
        ⟨nextHospitalId db, i.name, i.address, db.now⟩ rfl
    show read_hospital _ (nextHospitalId db) = _
    unfold read_hospital
    rw [hfind]
    rfl
  · intro db i db2 c r h
    obtain ⟨hdb2, -, hr⟩ := create_role_ok_inv h
    subst hdb2
    subst hr
    have hfind : findRoleById
        { db with roles := db.roles ++
          [⟨nextRoleId db, i.role_name, i.permissions, i.hospital_id⟩] }
        (nextRoleId db) =
        some ⟨nextRoleId db, i.role_name, i.permissions, i.hospital_id⟩ :=
      find?_fresh_append (fun r : RoleRow => r.id) db.roles
        ⟨nextRoleId db, i.role_name, i.permissions, i.hospital_id⟩ rfl
    show read_role _ (nextRoleId db) = _
    unfold read_role
    rw [hfind]
  · intro db i db2 c r h
    obtain ⟨-, -, hdb2, -, hr⟩ := create_user_ok_inv h
    subst hdb2
    subst hr
    have hfind : findUserById
        { db with users := db.users ++ [⟨nextUserId db, i.username, i.full_name, i.email,
          get_password_hash i.password, i.role_id⟩] }
        (nextUserId db) =
        some ⟨nextUserId db, i.username, i.full_name, i.email,
          get_password_hash i.password, i.role_id⟩ :=
      find?_fresh_append (fun u : UserRow => u.id) db.users
        ⟨nextUserId db, i.username, i.full_name, i.email,
          get_password_hash i.password, i.role_id⟩ rfl
    show read_user _ (nextUserId db) = _
    unfold read_user
    rw [hfind]
  · intro db i db2 c r h
    obtain ⟨u, hosp, hu, hh, -, hdb2, -, hr⟩ := create_doctor_ok_inv h
    subst hdb2
    subst hr
    have hfind : findDoctorById
        { db with doctors := db.doctors ++ [⟨nextDoctorId db, some i.user_id,
          some i.hospital_id, i.specialty, i.short_bio⟩] }
        (nextDoctorId db) =
        some ⟨nextDoctorId db, some i.user_id, some i.hospital_id, i.specialty, i.short_bio⟩ :=
      find?_fresh_append (fun d : DoctorRow => d.id) db.doctors
        ⟨nextDoctorId db, some i.user_id, some i.hospital_id, i.specialty, i.short_bio⟩ rfl
    show read_doctor _ (nextDoctorId db) = _
    unfold read_doctor
    rw [hfind]
    simp only []
    unfold doctorToResponse
    simp only []
    have hu2 : findUserById
        { db with doctors := db.doctors ++ [⟨nextDoctorId db, some i.user_id,
          some i.hospital_id, i.specialty, i.short_bio⟩] } i.user_id = some u := hu
    have hh2 : findHospitalById
        { db with doctors := db.doctors ++ [⟨nextDoctorId db, some i.user_id,
          some i.hospital_id, i.specialty, i.short_bio⟩] } i.hospital_id = some hosp := hh
    rw [hu2, hh2]

/-- C5 witness: concrete create-then-get round trips for the four
entities on the fixture stores. -/
theorem create_get_round_trip_witness :
    (create_hospital emptyDB ⟨"A", "addr"⟩ = .ok (dbH, 201, ⟨1, "A", "addr", 0⟩) ∧
     read_hospital dbH 1 = .ok (200, ⟨1, "A", "addr", 0⟩)) ∧
    (create_role dbH ⟨"r", "p", some 1⟩ = .ok (dbHR, 201, ⟨1, "r", "p", some 1, some "A"⟩) ∧
     read_role dbHR 1 = .ok (200, ⟨1, "r", "p", some 1, some "A"⟩)) ∧
    (create_user emptyDB ⟨"bob", "Bob B", "b(at)x", none, false, "pw"⟩ =
       .ok (dbU, 201, ⟨1, "bob", "Bob B", "b(at)x", none, none⟩) ∧
     read_user dbU 1 = .ok (200, ⟨1, "bob", "Bob B", "b(at)x", none, none⟩)) ∧
    (create_doctor dbUH ⟨1, 1, "derm", none⟩ =
       .ok (dbUHD, 201, ⟨1, 1, 1, "derm", none, some "bob", some "Bob B", some "A"⟩) ∧
     read_doctor dbUHD 1 = .ok (200, ⟨1, 1, 1, "derm", none, some "bob", some "Bob B", some "A"⟩)) :=
  ⟨⟨by decide, create_get_round_trip.1 emptyDB ⟨"A", "addr"⟩ dbH 201 ⟨1, "A", "addr", 0⟩
      (by decide)⟩,
   ⟨by decide, create_get_round_trip.2.1 dbH ⟨"r", "p", some 1⟩ dbHR 201
      ⟨1, "r", "p", some 1, some "A"⟩ (by decide)⟩,
   ⟨by decide, create_get_round_trip.2.2.1 emptyDB ⟨"bob", "Bob B", "b(at)x", none, false, "pw"⟩
      dbU 201 ⟨1, "bob", "Bob B", "b(at)x", none, none⟩ (by decide)⟩,
   ⟨by decide, create_get_round_trip.2.2.2 dbUH ⟨1, 1, "derm", none⟩ dbUHD 201
      ⟨1, 1, 1, "derm", none, some "bob", some "Bob B", some "A"⟩ (by decide)⟩⟩

/-- C6 counterexample: deleting the hospital with a dependent role
succeeds and the role row survives, but its stored hospital_id does not
remain at the deleted identity: the ORM default relationship cascade
de-associates the dependent, leaving hospital_id NULL. -/
theorem hospital_delete_dependent_role_counterexample :
    dbHR.roles.map (fun r => r.hospital_id) = [some 1] ∧
    delete_hospital dbHR 1 =
      .ok (⟨[], [⟨1, "r", "p", none⟩], [], [], 0⟩, 204, "Hospital deleted successfully") ∧
    (⟨[], [⟨1, "r", "p", none⟩], [], [], 0⟩ : DB).roles.map (fun r => r.hospital_id) = [none] := by
  decide

/-- C6 amended: deleting a Hospital that has a dependent Role succeeds
(status 204, no failure) and does not cascade the delete — the dependent
role row survives — but the session default cascade de-associates the
dependents: afterwards no role points at the deleted identity, and every
role that pointed at it keeps its identity with hospital_id set to
NULL. -/
theorem hospital_delete_deassociates_dependent_roles (db : DB) (hospital_id : Int)
    (w : HospitalRow) (hfind : findHospitalById db hospital_id = some w) :
    ∃ db2 m, delete_hospital db hospital_id = .ok (db2, 204, m) ∧
      db2.roles.length = db.roles.length ∧
      (∀ r, r ∈ db2.roles → r.hospital_id ≠ some w.id) ∧
      (∀ r, r ∈ db.roles → r.hospital_id = some w.id →
        ∃ r2, r2 ∈ db2.roles ∧ r2.id = r.id ∧ r2.hospital_id = none) := by
  refine ⟨{ db with
      hospitals := db.hospitals.filter (fun x => x.id != w.id),
      roles := db.roles.map (fun r => if r.hospital_id == some w.id then
        { r with hospital_id := none } else r),
      doctors := db.doctors.map (fun d => if d.hospital_id == some w.id then
        { d with hospital_id := none } else d) },
    "Hospital deleted successfully", ?_, ?_, ?_, ?_⟩
  · unfold delete_hospital
    rw [hfind]
  · simp
  · intro r hr
    obtain ⟨a, ha, rfl⟩ := List.mem_map.mp hr
    by_cases hc : (a.hospital_id == some w.id) = true
    · simp [hc]
    · have hc2 : (a.hospital_id == some w.id) = false := Bool.not_eq_true _ |>.mp hc
      simp only [hc2, Bool.false_eq_true, if_false]
      intro hx
      exact hc (by simp [hx])
  · intro r hr hrh
    refine ⟨_, List.mem_map_of_mem _ hr, ?_, ?_⟩ <;> simp [hrh]

/-- C6 witness: the concrete one-hospital one-role store. -/
theorem hospital_delete_deassociates_dependent_roles_witness :
    findHospitalById dbHR 1 = some ⟨1, "A", "addr", 0⟩ ∧
    ∃ db2 m, delete_hospital dbHR 1 = .ok (db2, 204, m) ∧
      db2.roles.length = dbHR.roles.length ∧
      (∀ r, r ∈ db2.roles → r.hospital_id ≠ some 1) ∧
      (∀ r, r ∈ dbHR.roles → r.hospital_id = some 1 →
        ∃ r2, r2 ∈ db2.roles ∧ r2.id = r.id ∧ r2.hospital_id = none) :=
  ⟨by decide,
   hospital_delete_deassociates_dependent_roles dbHR 1 ⟨1, "A", "addr", 0⟩ (by decide)⟩

/-- C7: for every entity type, Delete on an existing identity responds
with status 204 (a No Content success, whose body the framework drops on
the wire), removes the row with that identity and keeps every other row of
that table; Delete on an absent identity fails with NotFound 404, which
mutates nothing. -/
theorem delete_removes_row_204_else_404 :
    (∀ (db : DB) (i : Int) (w : HospitalRow), findHospitalById db i = some w →
      ∃ db2 m, delete_hospital db i = .ok (db2, 204, m) ∧
        (∀ x, x ∈ db2.hospitals → x.id ≠ w.id) ∧
        (∀ x, x ∈ db.hospitals → x.id ≠ w.id → x ∈ db2.hospitals)) ∧
    (∀ (db : DB) (i : Int), findHospitalById db i = none →
      delete_hospital db i = .error ⟨404, "Hospital not found"⟩) ∧
    (∀ (db : DB) (i : Int) (w : RoleRow), findRoleById db i = some w →
      ∃ db2 m, delete_role db i = .ok (db2, 204, m) ∧
        (∀ x, x ∈ db2.roles → x.id ≠ w.id) ∧
        (∀ x, x ∈ db.roles → x.id ≠ w.id → x ∈ db2.roles)) ∧
    (∀ (db : DB) (i : Int), findRoleById db i = none →
      delete_role db i = .error ⟨404, "Role not found"⟩) ∧
    (∀ (db : DB) (i : Int) (w : UserRow), findUserById db i = some w →
      ∃ db2 m, delete_user db i = .ok (db2, 204, m) ∧
        (∀ x, x ∈ db2.users → x.id ≠ w.id) ∧
        (∀ x, x ∈ db.users → x.id ≠ w.id → x ∈ db2.users)) ∧
    (∀ (db : DB) (i : Int), findUserById db i = none →
      delete_user db i = .error ⟨404, "User not found"⟩) ∧
    (∀ (db : DB) (i : Int) (w : DoctorRow), findDoctorById db i = some w →
      ∃ db2 m, delete_doctor db i = .ok (db2, 204, m) ∧
        (∀ x, x ∈ db2.doctors → x.id ≠ w.id) ∧
        (∀ x, x ∈ db.doctors → x.id ≠ w.id → x ∈ db2.doctors)) ∧
    (∀ (db : DB) (i : Int), findDoctorById db i = none →
      delete_doctor db i = .error ⟨404, "Doctor not found"⟩) := by
  refine ⟨?_, ?_, ?_, ?_, ?_, ?_, ?_, ?_⟩
  · intro db i w hfind
    refine ⟨{ db with
        hospitals := db.hospitals.filter (fun x => x.id != w.id),
        roles := db.roles.map (fun r => if r.hospital_id == some w.id then
          { r with hospital_id := none } else r),
        doctors := db.doctors.map (fun d => if d.hospital_id == some w.id then
          { d with hospital_id := none } else d) },
      "Hospital deleted successfully", ?_, ?_, ?_⟩
    · unfold delete_hospital
      rw [hfind]
    · intro x hx
      have := List.of_mem_filter hx
      simpa [bne_iff_ne] using this
    · intro x hx hne
      exact List.mem_filter.mpr ⟨hx, by simp [bne_iff_ne, hne]⟩
  · intro db i hnone
    unfold delete_hospital
    rw [hnone]
  · intro db i w hfind
    refine ⟨{ db with
        roles := db.roles.filter (fun x => x.id != w.id),
        users := db.users.map (fun u => if u.role_id == some w.id then
          { u with role_id := none } else u) },
      "Role deleted successfully", ?_, ?_, ?_⟩
    · unfold delete_role
      rw [hfind]
    · intro x hx
      have := List.of_mem_filter hx
      simpa [bne_iff_ne] using this
    · intro x hx hne
      exact List.mem_filter.mpr ⟨hx, by simp [bne_iff_ne, hne]⟩
  · intro db i hnone
    unfold delete_role
    rw [hnone]
  · intro db i w hfind
    refine ⟨{ db with
        users := db.users.filter (fun x => x.id != w.id),
        doctors := db.doctors.map (fun d => if d.user_id == some w.id then
          { d with user_id := none } else d) },
      "User deleted successfully", ?_, ?_, ?_⟩
    · unfold delete_user
      rw [hfind]
    · intro x hx
      have := List.of_mem_filter hx
      simpa [bne_iff_ne] using this
    · intro x hx hne
      exact List.mem_filter.mpr ⟨hx, by simp [bne_iff_ne, hne]⟩
  · intro db i hnone
    unfold delete_user
    rw [hnone]
  · intro db i w hfind
    refine ⟨{ db with doctors := db.doctors.filter (fun x => x.id != w.id) },
      "Doctor deleted successfully", ?_, ?_, ?_⟩
    · unfold delete_doctor
      rw [hfind]
    · intro x hx
      have := List.of_mem_filter hx
      simpa [bne_iff_ne] using this
    · intro x hx hne
      exact List.mem_filter.mpr ⟨hx, by simp [bne_iff_ne, hne]⟩
  · intro db i hnone
    unfold delete_doctor
    rw [hnone]

/-- C7 witness: concrete deletes on the fixtures: each entity deleted by
an existing identity with 204, and each rejected with 404 on the empty
store. -/
theorem delete_removes_row_204_else_404_witness :
    (findHospitalById dbH 1 = some ⟨1, "A", "addr", 0⟩ ∧
     ∃ db2 m, delete_hospital dbH 1 = .ok (db2, 204, m) ∧
       (∀ x, x ∈ db2.hospitals → x.id ≠ 1) ∧
       (∀ x, x ∈ dbH.hospitals → x.id ≠ 1 → x ∈ db2.hospitals)) ∧
    (findHospitalById emptyDB 1 = none ∧
     delete_hospital emptyDB 1 = .error ⟨404, "Hospital not found"⟩) ∧
    (findRoleById dbHR 1 = some ⟨1, "r", "p", some 1⟩ ∧
     ∃ db2 m, delete_role dbHR 1 = .ok (db2, 204, m) ∧
       (∀ x, x ∈ db2.roles → x.id ≠ 1) ∧
       (∀ x, x ∈ dbHR.roles → x.id ≠ 1 → x ∈ db2.roles)) ∧
    (findRoleById emptyDB 1 = none ∧
     delete_role emptyDB 1 = .error ⟨404, "Role not found"⟩) ∧
    (findUserById dbU 1 = some ⟨1, "bob", "Bob B", "b(at)x", "$2b$pw", none⟩ ∧
     ∃ db2 m, delete_user dbU 1 = .ok (db2, 204, m) ∧
       (∀ x, x ∈ db2.users → x.id ≠ 1) ∧
       (∀ x, x ∈ dbU.users → x.id ≠ 1 → x ∈ db2.users)) ∧
    (findUserById emptyDB 1 = none ∧
     delete_user emptyDB 1 = .error ⟨404, "User not found"⟩) ∧
    (findDoctorById dbUHD 1 = some ⟨1, some 1, some 1, "derm", none⟩ ∧
     ∃ db2 m, delete_doctor dbUHD 1 = .ok (db2, 204, m) ∧
       (∀ x, x ∈ db2.doctors → x.id ≠ 1) ∧
       (∀ x, x ∈ dbUHD.doctors → x.id ≠ 1 → x ∈ db2.doctors)) ∧
    (findDoctorById emptyDB 1 = none ∧
     delete_doctor emptyDB 1 = .error ⟨404, "Doctor not found"⟩) :=
  ⟨⟨by decide, delete_removes_row_204_else_404.1 dbH 1 ⟨1, "A", "addr", 0⟩ (by decide)⟩,
   ⟨by decide, delete_removes_row_204_else_404.2.1 emptyDB 1 (by decide)⟩,
   ⟨by decide, delete_removes_row_204_else_404.2.2.1 dbHR 1 ⟨1, "r", "p", some 1⟩ (by decide)⟩,
   ⟨by decide, delete_removes_row_204_else_404.2.2.2.1 emptyDB 1 (by decide)⟩,
   ⟨by decide, delete_removes_row_204_else_404.2.2.2.2.1 dbU 1
      ⟨1, "bob", "Bob B", "b(at)x", "$2b$pw", none⟩ (by decide)⟩,
   ⟨by decide, delete_removes_row_204_else_404.2.2.2.2.2.1 emptyDB 1 (by decide)⟩,
   ⟨by decide, delete_removes_row_204_else_404.2.2.2.2.2.2.1 dbUHD 1
      ⟨1, some 1, some 1, "derm", none⟩ (by decide)⟩,
   ⟨by decide, delete_removes_row_204_else_404.2.2.2.2.2.2.2 emptyDB 1 (by decide)⟩⟩

/-- C8: for every entity type and store state, List(skip, limit) returns
at most limit rows, and exactly the rows obtained by skipping the first
skip rows of the table scan (stated for each of the four entity types);
on a store whose table is in ascending-identity order — the shape every
creation preserves, for each entity type — the listed rows are in
ascending-identity order; in particular, after creating exactly three
hospitals named A, B, C on the empty store, List(0, 100) returns all
three in ascending-identity order. -/
theorem list_pagination_and_order :
    (∀ (db : DB) (skip limit : Nat), (read_hospitals db skip limit).length ≤ limit) ∧
    (∀ (db : DB) (skip limit : Nat), (read_roles db skip limit).length ≤ limit) ∧
    (∀ (db : DB) (skip limit : Nat), (read_users db skip limit).length ≤ limit) ∧
    (∀ (db : DB) (skip limit : Nat) (res : List DoctorResponse),
      read_doctors db skip limit = .ok res → res.length ≤ limit) ∧
    (∀ (db : DB) (skip limit : Nat),
      read_hospitals db skip limit = (read_hospitals db 0 (skip + limit)).drop skip) ∧
    (∀ (db : DB) (skip limit : Nat), HospitalsAsc db.hospitals →
      (read_hospitals db skip limit).Pairwise (fun a b => a.id < b.id)) ∧
    (∀ (db : DB) (i : HospitalCreate) (db2 : DB) (c : Nat) (r : HospitalResponse),
      HospitalsAsc db.hospitals → create_hospital db i = .ok (db2, c, r) →
      HospitalsAsc db2.hospitals) ∧
    (create_hospital emptyDB ⟨"A", "a"⟩ =
       .ok (⟨[⟨1, "A", "a", 0⟩], [], [], [], 0⟩, 201, ⟨1, "A", "a", 0⟩) ∧
     create_hospital ⟨[⟨1, "A", "a", 0⟩], [], [], [], 0⟩ ⟨"B", "b"⟩ =
       .ok (⟨[⟨1, "A", "a", 0⟩, ⟨2, "B", "b", 0⟩], [], [], [], 0⟩, 201, ⟨2, "B", "b", 0⟩) ∧
     create_hospital ⟨[⟨1, "A", "a", 0⟩, ⟨2, "B", "b", 0⟩], [], [], [], 0⟩ ⟨"C", "c"⟩ =
       .ok (⟨[⟨1, "A", "a", 0⟩, ⟨2, "B", "b", 0⟩, ⟨3, "C", "c", 0⟩], [], [], [], 0⟩, 201,
            ⟨3, "C", "c", 0⟩) ∧
     read_hospitals ⟨[⟨1, "A", "a", 0⟩, ⟨2, "B", "b", 0⟩, ⟨3, "C", "c", 0⟩], [], [], [], 0⟩ 0 100 =
       [⟨1, "A", "a", 0⟩, ⟨2, "B", "b", 0⟩, ⟨3, "C", "c", 0⟩]) ∧
    (∀ (db : DB) (skip limit : Nat),
      read_roles db skip limit = (read_roles db 0 (skip + limit)).drop skip) ∧
    (∀ (db : DB) (skip limit : Nat),
      read_users db skip limit = (read_users db 0 (skip + limit)).drop skip) ∧
    (∀ (db : DB) (skip limit : Nat) (res : List DoctorResponse),
      read_doctors db 0 (skip + limit) = .ok res →
      read_doctors db skip limit = .ok (res.drop skip)) ∧
    (∀ (db : DB) (skip limit : Nat), RolesAsc db.roles →
      (read_roles db skip limit).Pairwise (fun a b => a.id < b.id)) ∧
    (∀ (db : DB) (skip limit : Nat), UsersAsc db.users →
      (read_users db skip limit).Pairwise (fun a b => a.id < b.id)) ∧
    (∀ (db : DB) (skip limit : Nat) (res : List DoctorResponse), DoctorsAsc db.doctors →
      read_doctors db skip limit = .ok res →
      res.Pairwise (fun a b => a.id < b.id)) ∧
    (∀ (db : DB) (i : RoleCreate) (db2 : DB) (c : Nat) (r : RoleResponse),
      RolesAsc db.roles → create_role db i = .ok (db2, c, r) → RolesAsc db2.roles) ∧
    (∀ (db : DB) (i : UserCreate) (db2 : DB) (c : Nat) (r : UserResponse),
      UsersAsc db.users → create_user db i = .ok (db2, c, r) → UsersAsc db2.users) ∧
    (∀ (db : DB) (i : DoctorCreate) (db2 : DB) (c : Nat) (r : DoctorResponse),
      DoctorsAsc db.doctors → create_doctor db i = .ok (db2, c, r) →
      DoctorsAsc db2.doctors) := by
  refine ⟨?_, ?_, ?_, ?_, ?_, ?_, ?_, ?_, ?_, ?_, ?_, ?_, ?_, ?_, ?_, ?_, ?_⟩
  · intro db skip limit
    unfold read_hospitals
    rw [List.length_map]
    exact List.length_take_le _ _
  · intro db skip limit
    unfold read_roles
    rw [List.length_map]
    exact List.length_take_le _ _
  · intro db skip limit
    unfold read_users
    rw [List.length_map]
    exact List.length_take_le _ _
  · intro db skip limit res h
    unfold read_doctors at h
    rw [decorateDoctors_length db _ res h]
    exact List.length_take_le _ _
  · intro db skip limit
    unfold read_hospitals
    rw [List.drop_zero, ← List.map_drop, List.drop_take]
    have harith : skip + limit - skip = limit := by omega
    rw [harith]
  · intro db skip limit hasc
    unfold read_hospitals
    rw [List.pairwise_map]
    have hsub : ((db.hospitals.drop skip).take limit).Pairwise (fun a b => a.id < b.id) :=
      hasc.sublist ((List.take_sublist _ _).trans (List.drop_sublist _ _))
    exact hsub.imp (fun h => h)
  · intro db i db2 c r hasc h
    obtain ⟨-, hdb2, -, -⟩ := create_hospital_ok_inv h
    subst hdb2
    show List.Pairwise (fun a b => a.id < b.id)
      (db.hospitals ++ [(⟨nextHospitalId db, i.name, i.address, db.now⟩ : HospitalRow)])
    rw [List.pairwise_append]
    refine ⟨hasc, List.pairwise_singleton _ _, ?_⟩
    intro a ha b hb
    rw [List.mem_singleton] at hb
    subst hb
    have := le_maxId (db.hospitals.map (fun h => h.id)) a.id (List.mem_map_of_mem _ ha)
    show a.id < nextHospitalId db
    simp only [nextHospitalId]
    omega
  · exact ⟨by decide, by decide, by decide, by decide⟩
  · intro db skip limit
    unfold read_roles
    rw [List.drop_zero, ← List.map_drop, List.drop_take]
    have harith : skip + limit - skip = limit := by omega
    rw [harith]
  · intro db skip limit
    unfold read_users
    rw [List.drop_zero, ← List.map_drop, List.drop_take]
    have harith : skip + limit - skip = limit := by omega
    rw [harith]
  · intro db skip limit res h
    unfold read_doctors at h ⊢
    rw [List.drop_zero] at h
    have h2 := decorateDoctors_drop db _ res h skip
    rw [List.drop_take] at h2
    have harith : skip + limit - skip = limit := by omega
    rw [harith] at h2
    exact h2
  · intro db skip limit hasc
    unfold read_roles
    rw [List.pairwise_map]
    have hsub : ((db.roles.drop skip).take limit).Pairwise (fun a b => a.id < b.id) :=
      hasc.sublist ((List.take_sublist _ _).trans (List.drop_sublist _ _))
    exact hsub.imp (fun h => h)
  · intro db skip limit hasc
    unfold read_users
    rw [List.pairwise_map]
    have hsub : ((db.users.drop skip).take limit).Pairwise (fun a b => a.id < b.id) :=
      hasc.sublist ((List.take_sublist _ _).trans (List.drop_sublist _ _))
    exact hsub.imp (fun h => h)
  · intro db skip limit res hasc h
    unfold read_doctors at h
    have hsub : ((db.doctors.drop skip).take limit).Pairwise (fun a b => a.id < b.id) :=
      hasc.sublist ((List.take_sublist _ _).trans (List.drop_sublist _ _))
    have hids := decorateDoctors_ids db _ res h
    have h1 : (((db.doctors.drop skip).take limit).map (fun d => d.id)).Pairwise
        (fun a b => a < b) := by
      rw [List.pairwise_map]
      exact hsub.imp (fun h => h)
    rw [← hids] at h1
    rw [List.pairwise_map] at h1
    exact h1.imp (fun h => h)
  · intro db i db2 c r hasc h
    obtain ⟨hdb2, -, -⟩ := create_role_ok_inv h
    subst hdb2
    show List.Pairwise (fun a b => a.id < b.id)
      (db.roles ++ [(⟨nextRoleId db, i.role_name, i.permissions, i.hospital_id⟩ : RoleRow)])
    rw [List.pairwise_append]
    refine ⟨hasc, List.pairwise_singleton _ _, ?_⟩
    intro a ha b hb
    rw [List.mem_singleton] at hb
    subst hb
    have := le_maxId (db.roles.map (fun r => r.id)) a.id (List.mem_map_of_mem _ ha)
    show a.id < nextRoleId db
    simp only [nextRoleId]
    omega
  · intro db i db2 c r hasc h
    obtain ⟨-, -, hdb2, -, -⟩ := create_user_ok_inv h
    subst hdb2
    show List.Pairwise (fun a b => a.id < b.id)
      (db.users ++ [(⟨nextUserId db, i.username, i.full_name, i.email,
        get_password_hash i.password, i.role_id⟩ : UserRow)])
    rw [List.pairwise_append]
    refine ⟨hasc, List.pairwise_singleton _ _, ?_⟩
    intro a ha b hb
    rw [List.mem_singleton] at hb
    subst hb
    have := le_maxId (db.users.map (fun u => u.id)) a.id (List.mem_map_of_mem _ ha)
    show a.id < nextUserId db
    simp only [nextUserId]
    omega
  · intro db i db2 c r hasc h
    obtain ⟨u, hosp, -, -, -, hdb2, -, -⟩ := create_doctor_ok_inv h
    subst hdb2
    show List.Pairwise (fun a b => a.id < b.id)
      (db.doctors ++ [(⟨nextDoctorId db, some i.user_id, some i.hospital_id,
        i.specialty, i.short_bio⟩ : DoctorRow)])
    rw [List.pairwise_append]
    refine ⟨hasc, List.pairwise_singleton _ _, ?_⟩
    intro a ha b hb
    rw [List.mem_singleton] at hb
    subst hb
    have := le_maxId (db.doctors.map (fun d => d.id)) a.id (List.mem_map_of_mem _ ha)
    show a.id < nextDoctorId db
    simp only [nextDoctorId]
    omega

/-- C8 witness: concrete instances of the conjuncts carrying hypotheses:
a doctor listing whose decoration succeeded, ordered listings of each
entity type, a doctor listing dropped past a prefix, and order
preservation through a create of each entity type. -/
theorem list_pagination_and_order_witness :
    (read_doctors dbUHD 0 100 =
       .ok [⟨1, 1, 1, "derm", none, some "bob", some "Bob B", some "A"⟩] ∧
     ([(⟨1, 1, 1, "derm", none, some "bob", some "Bob B", some "A"⟩ : DoctorResponse)]).length ≤ 100) ∧
    (HospitalsAsc (⟨[⟨1, "A", "a", 0⟩, ⟨2, "B", "b", 0⟩, ⟨3, "C", "c", 0⟩], [], [], [], 0⟩ : DB).hospitals ∧
     (read_hospitals ⟨[⟨1, "A", "a", 0⟩, ⟨2, "B", "b", 0⟩, ⟨3, "C", "c", 0⟩], [], [], [], 0⟩ 0 100).Pairwise
       (fun a b => a.id < b.id)) ∧
    (HospitalsAsc emptyDB.hospitals ∧
     create_hospital emptyDB ⟨"A", "addr"⟩ = .ok (dbH, 201, ⟨1, "A", "addr", 0⟩) ∧
     HospitalsAsc dbH.hospitals) ∧
    (read_doctors dbUHD 0 100 =
       .ok [⟨1, 1, 1, "derm", none, some "bob", some "Bob B", some "A"⟩] ∧
     read_doctors dbUHD 0 100 =
       .ok ([(⟨1, 1, 1, "derm", none, some "bob", some "Bob B", some "A"⟩ :
         DoctorResponse)].drop 0)) ∧
    (RolesAsc dbHR.roles ∧
     (read_roles dbHR 0 100).Pairwise (fun a b => a.id < b.id)) ∧
    (UsersAsc dbU.users ∧
     (read_users dbU 0 100).Pairwise (fun a b => a.id < b.id)) ∧
    (DoctorsAsc dbUHD.doctors ∧
     read_doctors dbUHD 0 100 =
       .ok [⟨1, 1, 1, "derm", none, some "bob", some "Bob B", some "A"⟩] ∧
     ([(⟨1, 1, 1, "derm", none, some "bob", some "Bob B", some "A"⟩ :
       DoctorResponse)]).Pairwise (fun a b => a.id < b.id)) ∧
    (RolesAsc dbH.roles ∧
     create_role dbH ⟨"r", "p", some 1⟩ = .ok (dbHR, 201, ⟨1, "r", "p", some 1, some "A"⟩) ∧
     RolesAsc dbHR.roles) ∧
    (UsersAsc emptyDB.users ∧
     create_user emptyDB ⟨"bob", "Bob B", "b(at)x", none, false, "pw"⟩ =
       .ok (dbU, 201, ⟨1, "bob", "Bob B", "b(at)x", none, none⟩) ∧
     UsersAsc dbU.users) ∧
    (DoctorsAsc dbUH.doctors ∧
     create_doctor dbUH ⟨1, 1, "derm", none⟩ =
       .ok (dbUHD, 201, ⟨1, 1, 1, "derm", none, some "bob", some "Bob B", some "A"⟩) ∧
     DoctorsAsc dbUHD.doctors) :=
  ⟨⟨by decide, list_pagination_and_order.2.2.2.1 dbUHD 0 100
      [⟨1, 1, 1, "derm", none, some "bob", some "Bob B", some "A"⟩] (by decide)⟩,
   ⟨by decide, list_pagination_and_order.2.2.2.2.2.1
      ⟨[⟨1, "A", "a", 0⟩, ⟨2, "B", "b", 0⟩, ⟨3, "C", "c", 0⟩], [], [], [], 0⟩ 0 100 (by decide)⟩,
   ⟨by decide, by decide, list_pagination_and_order.2.2.2.2.2.2.1 emptyDB ⟨"A", "addr"⟩
      dbH 201 ⟨1, "A", "addr", 0⟩ (by decide) (by decide)⟩,
   ⟨by decide, list_pagination_and_order.2.2.2.2.2.2.2.2.2.2.1 dbUHD 0 100
      [⟨1, 1, 1, "derm", none, some "bob", some "Bob B", some "A"⟩] (by decide)⟩,
   ⟨by decide, list_pagination_and_order.2.2.2.2.2.2.2.2.2.2.2.1 dbHR 0 100 (by decide)⟩,
   ⟨by decide, list_pagination_and_order.2.2.2.2.2.2.2.2.2.2.2.2.1 dbU 0 100 (by decide)⟩,
   ⟨by decide, by decide, list_pagination_and_order.2.2.2.2.2.2.2.2.2.2.2.2.2.1 dbUHD 0 100
      [⟨1, 1, 1, "derm", none, some "bob", some "Bob B", some "A"⟩] (by decide) (by decide)⟩,
   ⟨by decide, by decide, list_pagination_and_order.2.2.2.2.2.2.2.2.2.2.2.2.2.2.1 dbH
      ⟨"r", "p", some 1⟩ dbHR 201 ⟨1, "r", "p", some 1, some "A"⟩ (by decide) (by decide)⟩,
   ⟨by decide, by decide, list_pagination_and_order.2.2.2.2.2.2.2.2.2.2.2.2.2.2.2.1 emptyDB
      ⟨"bob", "Bob B", "b(at)x", none, false, "pw"⟩ dbU 201
      ⟨1, "bob", "Bob B", "b(at)x", none, none⟩ (by decide) (by decide)⟩,
   ⟨by decide, by decide, list_pagination_and_order.2.2.2.2.2.2.2.2.2.2.2.2.2.2.2.2 dbUH
      ⟨1, 1, "derm", none⟩ dbUHD 201
      ⟨1, 1, 1, "derm", none, some "bob", some "Bob B", some "A"⟩ (by decide) (by decide)⟩⟩

/-- C9: created_at is assigned once, at Hospital creation, and never
mutated afterwards: a successful Hospital update leaves the identity and
created_at of every stored hospital row exactly as they were, whatever
name and address the input carries. -/
theorem hospital_created_at_immutable_under_update (db : DB) (hospital_id : Int)
    (input : HospitalCreate) (db2 : DB) (code : Nat) (resp : HospitalResponse)
    (h : update_hospital db hospital_id input = .ok (db2, code, resp)) :
    db2.hospitals.map (fun x => (x.id, x.created_at)) =
      db.hospitals.map (fun x => (x.id, x.created_at)) := by
  unfold update_hospital at h
  cases hf : findHospitalById db hospital_id with
  | none => rw [hf] at h; exact absurd h (by simp)
  | some w =>
    rw [hf] at h
    simp only [] at h
    by_cases hc : (input.name != w.name &&
        (db.hospitals.find? (fun x => x.name == input.name)).isSome) = true
    · rw [if_pos hc] at h; exact absurd h (by simp)
    · rw [if_neg hc] at h
      simp only [Except.ok.injEq, Prod.mk.injEq] at h
      obtain ⟨hdb, -, -⟩ := h
      subst hdb
      simp only [List.map_map]
      apply List.map_congr_left
      intro a ha
      by_cases hid : (a.id == w.id) = true
      · simp [Function.comp, hid]
      · simp [Function.comp, hid]

/-- C1 counterexample: an update supplying only email, omitting password,
does not succeed: password is a required field of the UserCreate body
model, so pydantic rejects the request with status 422 before the handler
runs, although the target user exists. -/
theorem user_update_omitting_password_rejected_counterexample :
    findUserById dbU 1 = some ⟨1, "bob", "Bob B", "b(at)x", "$2b$pw", none⟩ ∧
    update_user_endpoint dbU 1 ⟨none, none, some "new(at)x", none, false, none⟩ =
      .error ⟨422, "Unprocessable Entity"⟩ := by
  decide

/-- C1 amended: partial application of the user update input holds only
for the one optional field: a payload omitting role_id leaves the stored
role_id unchanged, while a payload omitting password (or any other
required field) is rejected with 422 and mutates nothing; an update whose
password is present but empty leaves the stored hashed_password of every
user unchanged; one whose password is non-empty stores the hash of the new
password on the target row; and the response model is independent of the
stored hash, so no response exposes password or hash. -/
theorem user_update_field_application :
    (∀ (db : DB) (user_id : Int) (p : UserPayload), p.password = none →
      update_user_endpoint db user_id p = .error ⟨422, "Unprocessable Entity"⟩) ∧
    (∀ (db : DB) (user_id : Int) (user : UserCreate) (db2 : DB) (c : Nat) (r : UserResponse),
      db.users.Pairwise (fun a b => a.id ≠ b.id) → user.password = "" →
      update_user db user_id user = .ok (db2, c, r) →
      db2.users.map (fun u => (u.id, u.hashed_password)) =
        db.users.map (fun u => (u.id, u.hashed_password))) ∧
    (∀ (db : DB) (user_id : Int) (user : UserCreate) (db2 : DB) (c : Nat) (r : UserResponse),
      user.password ≠ "" → update_user db user_id user = .ok (db2, c, r) →
      ∃ w, findUserById db user_id = some w ∧
        ∃ u, u ∈ db2.users ∧ u.id = w.id ∧
          u.hashed_password = get_password_hash user.password) ∧
    (∀ (db : DB) (user_id : Int) (user : UserCreate) (db2 : DB) (c : Nat) (r : UserResponse),
      user.role_id_in_payload = false → update_user db user_id user = .ok (db2, c, r) →
      ∃ w, findUserById db user_id = some w ∧
        ∃ u, u ∈ db2.users ∧ u.id = w.id ∧ u.role_id = w.role_id) ∧
    (∀ (db : DB) (u : UserRow) (hp : String),
      userToResponse db { u with hashed_password := hp } = userToResponse db u) := by
  refine ⟨?_, ?_, ?_, ?_, ?_⟩
  · intro db user_id p hpw
    obtain ⟨pun, pfn, pem, ppw, prp, prid⟩ := p
    simp only at hpw
    subst hpw
    cases pun <;> cases pfn <;> cases pem <;> rfl
  · intro db user_id user db2 c r hpair hpw h
    obtain ⟨w, hfind, hdb2, -⟩ := update_user_ok_inv h
    subst hdb2
    simp only [List.map_map]
    apply List.map_congr_left
    intro u hu
    by_cases hc : (u.id == w.id) = true
    · have hwid : (w.id == user_id) = true := by
        have := List.find?_some hfind
        exact this
      have hpu : (u.id == user_id) = true := by
        rw [beq_iff_eq] at hc hwid ⊢
        rw [hc, hwid]
      have hpair2 : db.users.Pairwise
          (fun a b => ¬((a.id == user_id) = true ∧ (b.id == user_id) = true)) := by
        refine hpair.imp ?_
        intro a b hab ⟨ha, hb⟩
        rw [beq_iff_eq] at ha hb
        exact hab (by rw [ha, hb])
      have huw : u = w := find?_unique_match _ db.users w u hpair2 hfind hu hpu
      subst huw
      simp [Function.comp, hc, hpw]
    · simp [Function.comp, hc]
  · intro db user_id user db2 c r hpw h
    obtain ⟨w, hfind, hdb2, -⟩ := update_user_ok_inv h
    subst hdb2
    refine ⟨w, hfind, _, List.mem_map_of_mem _ (List.mem_of_find?_eq_some hfind), ?_, ?_⟩
      <;> simp [bne_iff_ne, hpw]
  · intro db user_id user db2 c r hset h
    obtain ⟨w, hfind, hdb2, -⟩ := update_user_ok_inv h
    subst hdb2
    refine ⟨w, hfind, _, List.mem_map_of_mem _ (List.mem_of_find?_eq_some hfind), ?_, ?_⟩
      <;> simp [hset]
  · intro db u hp
    rfl

/-- C1 witness: concrete instances: a payload without password rejected
with 422; an update with empty password leaving the stored hash unchanged;
an update with password pw2 storing its hash; an update omitting role_id
preserving the stored role_id; and hash-independence of the response. -/
theorem user_update_field_application_witness :
    (update_user_endpoint dbU 1 ⟨some "bob", some "Bob B", some "b(at)x", none, false, none⟩ =
      .error ⟨422, "Unprocessable Entity"⟩) ∧
    (dbU.users.Pairwise (fun a b => a.id ≠ b.id) ∧
     ∃ db2 c r, update_user dbU 1 ⟨"bob", "Bob New", "b(at)x", none, false, ""⟩ = .ok (db2, c, r) ∧
       db2.users.map (fun u => (u.id, u.hashed_password)) =
         dbU.users.map (fun u => (u.id, u.hashed_password))) ∧
    (∃ db2 c r, update_user dbU 1 ⟨"bob", "Bob New", "b(at)x", none, false, "pw2"⟩ =
       .ok (db2, c, r) ∧
     ∃ w, findUserById dbU 1 = some w ∧
       ∃ u, u ∈ db2.users ∧ u.id = w.id ∧ u.hashed_password = get_password_hash "pw2") ∧
    (∃ db2 c r, update_user dbU 1 ⟨"bob", "Bob New", "b(at)x", none, false, ""⟩ = .ok (db2, c, r) ∧
     ∃ w, findUserById dbU 1 = some w ∧
       ∃ u, u ∈ db2.users ∧ u.id = w.id ∧ u.role_id = w.role_id) ∧
    (userToResponse dbU ⟨1, "bob", "Bob B", "b(at)x", "other-hash", none⟩ =
      userToResponse dbU ⟨1, "bob", "Bob B", "b(at)x", "$2b$pw", none⟩) :=
  ⟨user_update_field_application.1 dbU 1
      ⟨some "bob", some "Bob B", some "b(at)x", none, false, none⟩ rfl,
   ⟨by decide, ⟨[], [], [⟨1, "bob", "Bob New", "b(at)x", "$2b$pw", none⟩], [], 0⟩, 200,
      ⟨1, "bob", "Bob New", "b(at)x", none, none⟩, by decide,
      user_update_field_application.2.1 dbU 1 ⟨"bob", "Bob New", "b(at)x", none, false, ""⟩
        ⟨[], [], [⟨1, "bob", "Bob New", "b(at)x", "$2b$pw", none⟩], [], 0⟩ 200
        ⟨1, "bob", "Bob New", "b(at)x", none, none⟩ (by decide) rfl (by decide)⟩,
   ⟨⟨[], [], [⟨1, "bob", "Bob New", "b(at)x", "$2b$pw2", none⟩], [], 0⟩, 200,
      ⟨1, "bob", "Bob New", "b(at)x", none, none⟩, by decide,
      user_update_field_application.2.2.1 dbU 1 ⟨"bob", "Bob New", "b(at)x", none, false, "pw2"⟩
        ⟨[], [], [⟨1, "bob", "Bob New", "b(at)x", "$2b$pw2", none⟩], [], 0⟩ 200
        ⟨1, "bob", "Bob New", "b(at)x", none, none⟩ (by decide) (by decide)⟩,
   ⟨⟨[], [], [⟨1, "bob", "Bob New", "b(at)x", "$2b$pw", none⟩], [], 0⟩, 200,
      ⟨1, "bob", "Bob New", "b(at)x", none, none⟩, by decide,
      user_update_field_application.2.2.2.1 dbU 1 ⟨"bob", "Bob New", "b(at)x", none, false, ""⟩
        ⟨[], [], [⟨1, "bob", "Bob New", "b(at)x", "$2b$pw", none⟩], [], 0⟩ 200
        ⟨1, "bob", "Bob New", "b(at)x", none, none⟩ rfl (by decide)⟩,
   user_update_field_application.2.2.2.2 dbU ⟨1, "bob", "Bob B", "b(at)x", "$2b$pw", none⟩
      "other-hash"⟩

/-- C10: the reference existence checks of the Role and User handlers run
only when the foreign key value is Python-truthy, so an input carrying a
hospital_id or role_id equal to 0 is not rejected with NotFound even
though no row has identity 0: the operation succeeds and the row is
inserted or updated with the foreign key stored as 0. -/
theorem truthiness_gated_reference_checks :
    (∀ (db : DB) (role : RoleCreate), role.hospital_id = some 0 →
      findHospitalById db 0 = none →
      ∃ db2 resp, create_role db role = .ok (db2, 201, resp) ∧
        db2.roles.map (fun r => r.hospital_id) =
          db.roles.map (fun r => r.hospital_id) ++ [some 0]) ∧
    (∀ (db : DB) (role_id : Int) (role : RoleCreate) (db_role : RoleRow),
      findRoleById db role_id = some db_role → role.hospital_id = some 0 →
      ∃ db2 resp, update_role db role_id role = .ok (db2, 200, resp) ∧
        ∃ r, r ∈ db2.roles ∧ r.id = db_role.id ∧ r.hospital_id = some 0) ∧
    (∀ (db : DB) (user : UserCreate), user.role_id = some 0 →
      db.users.find? (fun u => u.username == user.username) = none →
      db.users.find? (fun u => u.email == user.email) = none →
      findRoleById db 0 = none →
      ∃ db2 resp, create_user db user = .ok (db2, 201, resp) ∧
        db2.users.map (fun u => u.role_id) =
          db.users.map (fun u => u.role_id) ++ [some 0]) ∧
    (∀ (db : DB) (user_id : Int) (user : UserCreate) (db_user : UserRow),
      findUserById db user_id = some db_user → user.role_id = some 0 →
      user.role_id_in_payload = true →
      user.username = db_user.username → user.email = db_user.email →
      ∃ db2 resp, update_user db user_id user = .ok (db2, 200, resp) ∧
        ∃ u, u ∈ db2.users ∧ u.id = db_user.id ∧ u.role_id = some 0) := by
  refine ⟨?_, ?_, ?_, ?_⟩
  · intro db role h0 _hnone
    obtain ⟨rn, rp, rh⟩ := role
    simp only at h0
    subst h0
    exact ⟨_, _, rfl, by simp [create_role]⟩
  · intro db role_id role db_role hfind h0
    obtain ⟨rn, rp, rh⟩ := role
    simp only at h0
    subst h0
    unfold update_role
    rw [hfind]
    refine ⟨_, _, rfl, ?_⟩
    refine ⟨_, List.mem_map_of_mem _ (List.mem_of_find?_eq_some hfind), ?_, ?_⟩ <;> simp
  · intro db user h0 hu he _hnone
    obtain ⟨un, fn, em, rid, rset, pw⟩ := user
    simp only at h0 hu he
    subst h0
    unfold create_user
    rw [hu, he]
    exact ⟨_, _, rfl, by simp⟩
  · intro db user_id user db_user hfind h0 hset hun hem
    obtain ⟨un, fn, em, rid, rset, pw⟩ := user
    simp only at h0 hset hun hem
    subst h0; subst hset; subst hun; subst hem
    unfold update_user
    rw [hfind]
    simp only [bne_self_eq_false, Bool.false_and, Bool.false_eq_true, if_false]
    refine ⟨_, _, rfl, ?_⟩
    refine ⟨_, List.mem_map_of_mem _ (List.mem_of_find?_eq_some hfind), ?_, ?_⟩ <;> simp

/-- C10 witness: concrete instances of all four conjuncts, with every
hypothesis discharged by evaluation: a role created and a role updated
with hospital_id 0, and a user created and a user updated with role_id 0,
all succeeding with the zero foreign key stored. -/
theorem truthiness_gated_reference_checks_witness :
    (findHospitalById emptyDB 0 = none ∧
     ∃ db2 resp, create_role emptyDB ⟨"r", "p", some 0⟩ = .ok (db2, 201, resp) ∧
       db2.roles.map (fun r => r.hospital_id) =
         emptyDB.roles.map (fun r => r.hospital_id) ++ [some 0]) ∧
    (findRoleById dbHR 1 = some ⟨1, "r", "p", some 1⟩ ∧
     ∃ db2 resp, update_role dbHR 1 ⟨"r2", "p2", some 0⟩ = .ok (db2, 200, resp) ∧
       ∃ r, r ∈ db2.roles ∧ r.id = 1 ∧ r.hospital_id = some 0) ∧
    (findRoleById emptyDB 0 = none ∧
     ∃ db2 resp, create_user emptyDB ⟨"u", "F", "e", some 0, true, "pw"⟩ = .ok (db2, 201, resp) ∧
       db2.users.map (fun u => u.role_id) =
         emptyDB.users.map (fun u => u.role_id) ++ [some 0]) ∧
    (findUserById dbU 1 = some ⟨1, "bob", "Bob B", "b(at)x", "$2b$pw", none⟩ ∧
     ∃ db2 resp, update_user dbU 1 ⟨"bob", "New Name", "b(at)x", some 0, true, "pw2"⟩ =
         .ok (db2, 200, resp) ∧
       ∃ u, u ∈ db2.users ∧ u.id = 1 ∧ u.role_id = some 0) :=
  ⟨⟨by decide, truthiness_gated_reference_checks.1 emptyDB ⟨"r", "p", some 0⟩ rfl (by decide)⟩,
   ⟨by decide, truthiness_gated_reference_checks.2.1 dbHR 1 ⟨"r2", "p2", some 0⟩
      ⟨1, "r", "p", some 1⟩ (by decide) rfl⟩,
   ⟨by decide, truthiness_gated_reference_checks.2.2.1 emptyDB ⟨"u", "F", "e", some 0, true, "pw"⟩
      rfl (by decide) (by decide) (by decide)⟩,
   ⟨by decide, truthiness_gated_reference_checks.2.2.2 dbU 1
      ⟨"bob", "New Name", "b(at)x", some 0, true, "pw2"⟩
      ⟨1, "bob", "Bob B", "b(at)x", "$2b$pw", none⟩ (by decide) rfl rfl rfl rfl⟩⟩

/-- C2 counterexample: a Create whose input carries the non-null dangling
foreign key hospital_id = 0 is not rejected with NotFound: on the empty
store, which has no hospital row at all, create_role succeeds and inserts
the role with hospital_id stored as 0, because the Python truthiness guard
skips the existence check for 0. -/
theorem dangling_zero_fk_not_rejected_counterexample :
    emptyDB.hospitals = [] ∧
    create_role emptyDB ⟨"r", "p", some 0⟩ =
      .ok (⟨[], [⟨1, "r", "p", some 0⟩], [], [], 0⟩, 201, ⟨1, "r", "p", some 0, none⟩) := by
  decide

/-- C2 amended: for Role and User Create and Update, an input whose
hospital_id or role_id is non-null and non-zero (Python-truthy) and does
not refer to an existing row fails with NotFound 404, provided the checks
that run earlier in the handler pass (existing target, unchanged username
and email); for Doctor Create and Update the user_id and hospital_id
checks are unguarded, so any dangling value fails with NotFound 404.  An
error result performs no store mutation. -/
theorem nonzero_dangling_fk_rejected_404 :
    (∀ (db : DB) (role : RoleCreate) (v : Int), role.hospital_id = some v → v ≠ 0 →
      findHospitalById db v = none →
      create_role db role = .error ⟨404, "Hospital not found"⟩) ∧
    (∀ (db : DB) (role_id : Int) (role : RoleCreate) (db_role : RoleRow) (v : Int),
      findRoleById db role_id = some db_role →
      role.hospital_id = some v → v ≠ 0 → findHospitalById db v = none →
      update_role db role_id role = .error ⟨404, "Hospital not found"⟩) ∧
    (∀ (db : DB) (user : UserCreate) (v : Int),
      db.users.find? (fun u => u.username == user.username) = none →
      db.users.find? (fun u => u.email == user.email) = none →
      user.role_id = some v → v ≠ 0 → findRoleById db v = none →
      create_user db user = .error ⟨404, "Role not found"⟩) ∧
    (∀ (db : DB) (user_id : Int) (user : UserCreate) (db_user : UserRow) (v : Int),
      findUserById db user_id = some db_user →
      user.username = db_user.username → user.email = db_user.email →
      user.role_id = some v → v ≠ 0 → findRoleById db v = none →
      update_user db user_id user = .error ⟨404, "Role not found"⟩) ∧
    (∀ (db : DB) (doctor : DoctorCreate),
      findUserById db doctor.user_id = none →
      create_doctor db doctor = .error ⟨404, "User not found"⟩) ∧
    (∀ (db : DB) (doctor : DoctorCreate) (u : UserRow),
      findUserById db doctor.user_id = some u →
      findHospitalById db doctor.hospital_id = none →
      create_doctor db doctor = .error ⟨404, "Hospital not found"⟩) ∧
    (∀ (db : DB) (doctor_id : Int) (doctor : DoctorCreate) (d : DoctorRow),
      findDoctorById db doctor_id = some d →
      findUserById db doctor.user_id = none →
      update_doctor db doctor_id doctor = .error ⟨404, "User not found"⟩) ∧
    (∀ (db : DB) (doctor_id : Int) (doctor : DoctorCreate) (d : DoctorRow) (u : UserRow),
      findDoctorById db doctor_id = some d →
      findUserById db doctor.user_id = some u →
      findHospitalById db doctor.hospital_id = none →
      update_doctor db doctor_id doctor = .error ⟨404, "Hospital not found"⟩) := by
  refine ⟨?_, ?_, ?_, ?_, ?_, ?_, ?_, ?_⟩
  · intro db role v hrh hv hnone
    have hc : (intTruthy (some v) && (hospitalOfFK db (some v)).isNone) = true := by
      simp [intTruthy, hospitalOfFK, hnone, hv]
    unfold create_role
    rw [hrh, if_pos hc]
  · intro db role_id role db_role v hfind hrh hv hnone
    have hc : (intTruthy (some v) && (hospitalOfFK db (some v)).isNone) = true := by
      simp [intTruthy, hospitalOfFK, hnone, hv]
    unfold update_role
    rw [hfind]
    simp only []
    rw [hrh, if_pos hc]
  · intro db user v hu he hrid hv hnone
    have hc : (intTruthy (some v) && (roleOfFK db (some v)).isNone) = true := by
      simp [intTruthy, roleOfFK, hnone, hv]
    unfold create_user
    rw [hu, he, hrid, if_pos hc]
    rfl
  · intro db user_id user db_user v hfind hun hem hrid hv hnone
    have hc : (intTruthy (some v) && (roleOfFK db (some v)).isNone) = true := by
      simp [intTruthy, roleOfFK, hnone, hv]
    unfold update_user
    rw [hfind]
    simp only []
    rw [hun, hem, hrid]
    simp only [bne_self_eq_false, Bool.false_and, Bool.false_eq_true, if_false]
    rw [if_pos hc]
  · intro db doctor hnone
    unfold create_doctor
    rw [hnone]
  · intro db doctor u hu hnone
    unfold create_doctor
    rw [hu]
    simp only []
    rw [hnone]
  · intro db doctor_id doctor d hd hnone
    unfold update_doctor
    rw [hd]
    simp only []
    rw [hnone]
  · intro db doctor_id doctor d u hd hu hnone
    unfold update_doctor
    rw [hd]
    simp only []
    rw [hu]
    simp only []
    rw [hnone]

/-- C2 witness: concrete dangling non-zero references for all eight
conjuncts, each failing with 404 and leaving the store unchanged. -/
theorem nonzero_dangling_fk_rejected_404_witness :
    (findHospitalById dbH 7 = none ∧
     create_role dbH ⟨"r", "p", some 7⟩ = .error ⟨404, "Hospital not found"⟩) ∧
    (findRoleById dbHR 1 = some ⟨1, "r", "p", some 1⟩ ∧ findHospitalById dbHR 7 = none ∧
     update_role dbHR 1 ⟨"r", "p", some 7⟩ = .error ⟨404, "Hospital not found"⟩) ∧
    (findRoleById emptyDB 7 = none ∧
     create_user emptyDB ⟨"u", "F", "e", some 7, true, "pw"⟩ = .error ⟨404, "Role not found"⟩) ∧
    (findUserById dbU 1 = some ⟨1, "bob", "Bob B", "b(at)x", "$2b$pw", none⟩ ∧
     findRoleById dbU 7 = none ∧
     update_user dbU 1 ⟨"bob", "N", "b(at)x", some 7, true, ""⟩ =
       .error ⟨404, "Role not found"⟩) ∧
    (findUserById emptyDB 1 = none ∧
     create_doctor emptyDB ⟨1, 1, "derm", none⟩ = .error ⟨404, "User not found"⟩) ∧
    (findHospitalById dbU 5 = none ∧
     create_doctor dbU ⟨1, 5, "derm", none⟩ = .error ⟨404, "Hospital not found"⟩) ∧
    (findUserById dbUHD 9 = none ∧
     update_doctor dbUHD 1 ⟨9, 1, "x", none⟩ = .error ⟨404, "User not found"⟩) ∧
    (findHospitalById dbUHD 9 = none ∧
     update_doctor dbUHD 1 ⟨1, 9, "x", none⟩ = .error ⟨404, "Hospital not found"⟩) :=
  ⟨⟨by decide, nonzero_dangling_fk_rejected_404.1 dbH ⟨"r", "p", some 7⟩ 7 rfl
      (by decide) (by decide)⟩,
   ⟨by decide, by decide, nonzero_dangling_fk_rejected_404.2.1 dbHR 1 ⟨"r", "p", some 7⟩
      ⟨1, "r", "p", some 1⟩ 7 (by decide) rfl (by decide) (by decide)⟩,
   ⟨by decide, nonzero_dangling_fk_rejected_404.2.2.1 emptyDB ⟨"u", "F", "e", some 7, true, "pw"⟩
      7 (by decide) (by decide) rfl (by decide) (by decide)⟩,
   ⟨by decide, by decide, nonzero_dangling_fk_rejected_404.2.2.2.1 dbU 1
      ⟨"bob", "N", "b(at)x", some 7, true, ""⟩ ⟨1, "bob", "Bob B", "b(at)x", "$2b$pw", none⟩
      7 (by decide) rfl rfl rfl (by decide) (by decide)⟩,
   ⟨by decide, nonzero_dangling_fk_rejected_404.2.2.2.2.1 emptyDB ⟨1, 1, "derm", none⟩
      (by decide)⟩,
   ⟨by decide, nonzero_dangling_fk_rejected_404.2.2.2.2.2.1 dbU ⟨1, 5, "derm", none⟩
      ⟨1, "bob", "Bob B", "b(at)x", "$2b$pw", none⟩ (by decide) (by decide)⟩,
   ⟨by decide, nonzero_dangling_fk_rejected_404.2.2.2.2.2.2.1 dbUHD 1 ⟨9, 1, "x", none⟩
      ⟨1, some 1, some 1, "derm", none⟩ (by decide) (by decide)⟩,
   ⟨by decide, nonzero_dangling_fk_rejected_404.2.2.2.2.2.2.2 dbUHD 1 ⟨1, 9, "x", none⟩
      ⟨1, some 1, some 1, "derm", none⟩ ⟨1, "bob", "Bob B", "b(at)x", "$2b$pw", none⟩
      (by decide) (by decide) (by decide)⟩⟩

/-- C3: the invariant that each User is referenced by at most one Doctor
row is preserved by every operation: creating a second Doctor for a User
that already has one fails with Conflict 400 (and, being an error, leaves
the store unchanged); the doctor-touching operations all preserve the
invariant — Doctor Update cannot duplicate a user_id because the store
UNIQUE constraint on doctors.user_id fails the commit — and every other
operation leaves the doctors table untouched. -/
theorem one_doctor_per_user_invariant :
    (∀ (db : DB) (doctor : DoctorCreate) (u : UserRow) (hosp : HospitalRow),
      findUserById db doctor.user_id = some u →
      findHospitalById db doctor.hospital_id = some hosp →
      (∃ d, d ∈ db.doctors ∧ d.user_id = some doctor.user_id) →
      create_doctor db doctor = .error ⟨400, "User already has a doctor profile"⟩) ∧
    (∀ (db : DB) (doctor : DoctorCreate) (db2 : DB) (c : Nat) (r : DoctorResponse),
      DoctorInv db → create_doctor db doctor = .ok (db2, c, r) → DoctorInv db2) ∧
    (∀ (db : DB) (doctor_id : Int) (doctor : DoctorCreate) (db2 : DB) (c : Nat)
      (r : DoctorResponse),
      DoctorInv db → update_doctor db doctor_id doctor = .ok (db2, c, r) → DoctorInv db2) ∧
    (∀ (db : DB) (doctor_id : Int) (db2 : DB) (c : Nat) (m : String),
      DoctorInv db → delete_doctor db doctor_id = .ok (db2, c, m) → DoctorInv db2) ∧
    (∀ (db : DB) (user_id : Int) (db2 : DB) (c : Nat) (m : String),
      DoctorInv db → delete_user db user_id = .ok (db2, c, m) → DoctorInv db2) ∧
    (∀ (db : DB) (hospital_id : Int) (db2 : DB) (c : Nat) (m : String),
      DoctorInv db → delete_hospital db hospital_id = .ok (db2, c, m) → DoctorInv db2) ∧
    (∀ (db : DB) (i : HospitalCreate) (db2 : DB) (c : Nat) (r : HospitalResponse),
      create_hospital db i = .ok (db2, c, r) → db2.doctors = db.doctors) ∧
    (∀ (db : DB) (hospital_id : Int) (i : HospitalCreate) (db2 : DB) (c : Nat)
      (r : HospitalResponse),
      update_hospital db hospital_id i = .ok (db2, c, r) → db2.doctors = db.doctors) ∧
    (∀ (db : DB) (i : RoleCreate) (db2 : DB) (c : Nat) (r : RoleResponse),
      create_role db i = .ok (db2, c, r) → db2.doctors = db.doctors) ∧
    (∀ (db : DB) (role_id : Int) (i : RoleCreate) (db2 : DB) (c : Nat) (r : RoleResponse),
      update_role db role_id i = .ok (db2, c, r) → db2.doctors = db.doctors) ∧
    (∀ (db : DB) (role_id : Int) (db2 : DB) (c : Nat) (m : String),
      delete_role db role_id = .ok (db2, c, m) → db2.doctors = db.doctors) ∧
    (∀ (db : DB) (i : UserCreate) (db2 : DB) (c : Nat) (r : UserResponse),
      create_user db i = .ok (db2, c, r) → db2.doctors = db.doctors) ∧
    (∀ (db : DB) (user_id : Int) (i : UserCreate) (db2 : DB) (c : Nat) (r : UserResponse),
      update_user db user_id i = .ok (db2, c, r) → db2.doctors = db.doctors) := by
  refine ⟨?_, ?_, ?_, ?_, ?_, ?_, ?_, ?_, ?_, ?_, ?_, ?_, ?_⟩
  · intro db doctor u hosp hu hh hex
    obtain ⟨d, hd, hdu⟩ := hex
    have hs : (db.doctors.find? (fun d => d.user_id == some doctor.user_id)).isSome :=
      List.find?_isSome.mpr ⟨d, hd, by simp [hdu]⟩
    unfold create_doctor
    rw [hu]
    simp only []
    rw [hh]
    simp only []
    rw [if_pos hs]
  · intro db doctor db2 c r hinv h
    obtain ⟨u, hosp, -, -, hnone, hdb2, -, -⟩ := create_doctor_ok_inv h
    subst hdb2
    refine doctorInv_pairwise_append db.doctors _ doctor.user_id rfl ?_ ?_ hinv
    · intro d hd
      have := le_maxId (db.doctors.map (fun x => x.id)) d.id (List.mem_map_of_mem _ hd)
      simp only [nextDoctorId]
      omega
    · intro d hd
      simpa using List.find?_eq_none.mp hnone d hd
  · intro db doctor_id doctor db2 c r hinv h
    obtain ⟨w, u, hosp, -, -, -, hnone, hdb2, -⟩ := update_doctor_ok_inv h
    subst hdb2
    refine doctorInv_pairwise_replace db.doctors _ w.id doctor.user_id rfl rfl ?_ hinv
    intro d hd
    by_cases h1 : d.id = w.id
    · exact Or.inl h1
    · refine Or.inr ?_
      intro h2
      exact (List.find?_eq_none.mp hnone d hd) (by simp [bne_iff_ne, h1, h2])
  · intro db doctor_id db2 c m hinv h
    obtain ⟨w, -, hdb2, -⟩ := delete_doctor_ok_inv h
    subst hdb2
    exact hinv.sublist (List.filter_sublist _)
  · intro db user_id db2 c m hinv h
    obtain ⟨w, -, hdb2, -⟩ := delete_user_ok_inv h
    subst hdb2
    exact doctorInv_pairwise_nullify_user db.doctors w.id hinv
  · intro db hospital_id db2 c m hinv h
    obtain ⟨w, -, hdb2, -⟩ := delete_hospital_ok_inv h
    subst hdb2
    exact doctorInv_pairwise_nullify_hospital db.doctors w.id hinv
  · intro db i db2 c r h
    obtain ⟨-, hdb2, -, -⟩ := create_hospital_ok_inv h
    subst hdb2
    rfl
  · intro db hospital_id i db2 c r h
    obtain ⟨w, -, hdb2, -, -⟩ := update_hospital_ok_inv h
    subst hdb2
    rfl
  · intro db i db2 c r h
    obtain ⟨hdb2, -, -⟩ := create_role_ok_inv h
    subst hdb2
    rfl
  · intro db role_id i db2 c r h
    obtain ⟨w, -, hdb2, -⟩ := update_role_ok_inv h
    subst hdb2
    rfl
  · intro db role_id db2 c m h
    obtain ⟨w, -, hdb2, -⟩ := delete_role_ok_inv h
    subst hdb2
    rfl
  · intro db i db2 c r h
    obtain ⟨-, -, hdb2, -, -⟩ := create_user_ok_inv h
    subst hdb2
    rfl
  · intro db user_id i db2 c r h
    obtain ⟨w, -, hdb2, -⟩ := update_user_ok_inv h
    subst hdb2
    rfl

/-- C3 witness: concrete instances of all thirteen conjuncts on the
one-hospital one-user fixtures: the duplicate doctor create rejected with
the conflict message, and the invariant preserved through every
operation. -/
theorem one_doctor_per_user_invariant_witness :
    (findUserById dbUHD 1 = some ⟨1, "bob", "Bob B", "b(at)x", "$2b$pw", none⟩ ∧
     (⟨1, some 1, some 1, "derm", none⟩ : DoctorRow) ∈ dbUHD.doctors ∧
     create_doctor dbUHD ⟨1, 1, "x", none⟩ =
       .error ⟨400, "User already has a doctor profile"⟩) ∧
    (DoctorInv dbUH ∧
     create_doctor dbUH ⟨1, 1, "derm", none⟩ =
       .ok (dbUHD, 201, ⟨1, 1, 1, "derm", none, some "bob", some "Bob B", some "A"⟩) ∧
     DoctorInv dbUHD) ∧
    (update_doctor dbUHD 1 ⟨1, 1, "surg", none⟩ =
       .ok (⟨[⟨1, "A", "addr", 0⟩], [], [⟨1, "bob", "Bob B", "b(at)x", "$2b$pw", none⟩],
             [⟨1, some 1, some 1, "surg", none⟩], 0⟩, 200,
            ⟨1, 1, 1, "surg", none, some "bob", some "Bob B", some "A"⟩) ∧
     DoctorInv ⟨[⟨1, "A", "addr", 0⟩], [], [⟨1, "bob", "Bob B", "b(at)x", "$2b$pw", none⟩],
             [⟨1, some 1, some 1, "surg", none⟩], 0⟩) ∧
    (delete_doctor dbUHD 1 =
       .ok (⟨[⟨1, "A", "addr", 0⟩], [], [⟨1, "bob", "Bob B", "b(at)x", "$2b$pw", none⟩], [], 0⟩,
            204, "Doctor deleted successfully") ∧
     DoctorInv ⟨[⟨1, "A", "addr", 0⟩], [], [⟨1, "bob", "Bob B", "b(at)x", "$2b$pw", none⟩], [], 0⟩) ∧
    (delete_user dbUHD 1 =
       .ok (⟨[⟨1, "A", "addr", 0⟩], [], [], [⟨1, none, some 1, "derm", none⟩], 0⟩,
            204, "User deleted successfully") ∧
     DoctorInv ⟨[⟨1, "A", "addr", 0⟩], [], [], [⟨1, none, some 1, "derm", none⟩], 0⟩) ∧
    (delete_hospital dbUHD 1 =
       .ok (⟨[], [], [⟨1, "bob", "Bob B", "b(at)x", "$2b$pw", none⟩],
             [⟨1, some 1, none, "derm", none⟩], 0⟩, 204, "Hospital deleted successfully") ∧
     DoctorInv ⟨[], [], [⟨1, "bob", "Bob B", "b(at)x", "$2b$pw", none⟩],
             [⟨1, some 1, none, "derm", none⟩], 0⟩) ∧
    (create_hospital emptyDB ⟨"A", "addr"⟩ = .ok (dbH, 201, ⟨1, "A", "addr", 0⟩) ∧
     dbH.doctors = emptyDB.doctors) ∧
    (update_hospital dbH 1 ⟨"B", "e"⟩ =
       .ok (⟨[⟨1, "B", "e", 0⟩], [], [], [], 0⟩, 200, ⟨1, "B", "e", 0⟩) ∧
     (⟨[⟨1, "B", "e", 0⟩], [], [], [], 0⟩ : DB).doctors = dbH.doctors) ∧
    (create_role emptyDB ⟨"r", "p", none⟩ =
       .ok (⟨[], [⟨1, "r", "p", none⟩], [], [], 0⟩, 201, ⟨1, "r", "p", none, none⟩) ∧
     (⟨[], [⟨1, "r", "p", none⟩], [], [], 0⟩ : DB).doctors = emptyDB.doctors) ∧
    (update_role dbHR 1 ⟨"r2", "p2", none⟩ =
       .ok (⟨[⟨1, "A", "addr", 0⟩], [⟨1, "r2", "p2", none⟩], [], [], 0⟩, 200,
            ⟨1, "r2", "p2", none, none⟩) ∧
     (⟨[⟨1, "A", "addr", 0⟩], [⟨1, "r2", "p2", none⟩], [], [], 0⟩ : DB).doctors = dbHR.doctors) ∧
    (delete_role dbHR 1 =
       .ok (⟨[⟨1, "A", "addr", 0⟩], [], [], [], 0⟩, 204, "Role deleted successfully") ∧
     (⟨[⟨1, "A", "addr", 0⟩], [], [], [], 0⟩ : DB).doctors = dbHR.doctors) ∧
    (create_user emptyDB ⟨"bob", "Bob B", "b(at)x", none, false, "pw"⟩ =
       .ok (dbU, 201, ⟨1, "bob", "Bob B", "b(at)x", none, none⟩) ∧
     dbU.doctors = emptyDB.doctors) ∧
    (update_user dbU 1 ⟨"bob", "Bob New", "b(at)x", none, false, ""⟩ =
       .ok (⟨[], [], [⟨1, "bob", "Bob New", "b(at)x", "$2b$pw", none⟩], [], 0⟩, 200,
            ⟨1, "bob", "Bob New", "b(at)x", none, none⟩) ∧
     (⟨[], [], [⟨1, "bob", "Bob New", "b(at)x", "$2b$pw", none⟩], [], 0⟩ : DB).doctors =
       dbU.doctors) :=
  ⟨⟨by decide, by decide, one_doctor_per_user_invariant.1 dbUHD ⟨1, 1, "x", none⟩
      ⟨1, "bob", "Bob B", "b(at)x", "$2b$pw", none⟩ ⟨1, "A", "addr", 0⟩ (by decide) (by decide)
      ⟨⟨1, some 1, some 1, "derm", none⟩, by decide, rfl⟩⟩,
   ⟨by decide, by decide, one_doctor_per_user_invariant.2.1 dbUH ⟨1, 1, "derm", none⟩ dbUHD 201
      ⟨1, 1, 1, "derm", none, some "bob", some "Bob B", some "A"⟩ (by decide) (by decide)⟩,
   ⟨by decide, one_doctor_per_user_invariant.2.2.1 dbUHD 1 ⟨1, 1, "surg", none⟩
      ⟨[⟨1, "A", "addr", 0⟩], [], [⟨1, "bob", "Bob B", "b(at)x", "$2b$pw", none⟩],
       [⟨1, some 1, some 1, "surg", none⟩], 0⟩ 200
      ⟨1, 1, 1, "surg", none, some "bob", some "Bob B", some "A"⟩ (by decide) (by decide)⟩,
   ⟨by decide, one_doctor_per_user_invariant.2.2.2.1 dbUHD 1
      ⟨[⟨1, "A", "addr", 0⟩], [], [⟨1, "bob", "Bob B", "b(at)x", "$2b$pw", none⟩], [], 0⟩ 204
      "Doctor deleted successfully" (by decide) (by decide)⟩,
   ⟨by decide, one_doctor_per_user_invariant.2.2.2.2.1 dbUHD 1
      ⟨[⟨1, "A", "addr", 0⟩], [], [], [⟨1, none, some 1, "derm", none⟩], 0⟩ 204
      "User deleted successfully" (by decide) (by decide)⟩,
   ⟨by decide, one_doctor_per_user_invariant.2.2.2.2.2.1 dbUHD 1
      ⟨[], [], [⟨1, "bob", "Bob B", "b(at)x", "$2b$pw", none⟩],
       [⟨1, some 1, none, "derm", none⟩], 0⟩ 204 "Hospital deleted successfully"
      (by decide) (by decide)⟩,
   ⟨by decide, one_doctor_per_user_invariant.2.2.2.2.2.2.1 emptyDB ⟨"A", "addr"⟩ dbH 201
      ⟨1, "A", "addr", 0⟩ (by decide)⟩,
   ⟨by decide, one_doctor_per_user_invariant.2.2.2.2.2.2.2.1 dbH 1 ⟨"B", "e"⟩
      ⟨[⟨1, "B", "e", 0⟩], [], [], [], 0⟩ 200 ⟨1, "B", "e", 0⟩ (by decide)⟩,
   ⟨by decide, one_doctor_per_user_invariant.2.2.2.2.2.2.2.2.1 emptyDB ⟨"r", "p", none⟩
      ⟨[], [⟨1, "r", "p", none⟩], [], [], 0⟩ 201 ⟨1, "r", "p", none, none⟩ (by decide)⟩,
   ⟨by decide, one_doctor_per_user_invariant.2.2.2.2.2.2.2.2.2.1 dbHR 1 ⟨"r2", "p2", none⟩
      ⟨[⟨1, "A", "addr", 0⟩], [⟨1, "r2", "p2", none⟩], [], [], 0⟩ 200
      ⟨1, "r2", "p2", none, none⟩ (by decide)⟩,
   ⟨by decide, one_doctor_per_user_invariant.2.2.2.2.2.2.2.2.2.2.1 dbHR 1
      ⟨[⟨1, "A", "addr", 0⟩], [], [], [], 0⟩ 204 "Role deleted successfully" (by decide)⟩,
   ⟨by decide, one_doctor_per_user_invariant.2.2.2.2.2.2.2.2.2.2.2.1 emptyDB
      ⟨"bob", "Bob B", "b(at)x", none, false, "pw"⟩ dbU 201
      ⟨1, "bob", "Bob B", "b(at)x", none, none⟩ (by decide)⟩,
   ⟨by decide, one_doctor_per_user_invariant.2.2.2.2.2.2.2.2.2.2.2.2 dbU 1
      ⟨"bob", "Bob New", "b(at)x", none, false, ""⟩
      ⟨[], [], [⟨1, "bob", "Bob New", "b(at)x", "$2b$pw", none⟩], [], 0⟩ 200
      ⟨1, "bob", "Bob New", "b(at)x", none, none⟩ (by decide)⟩⟩

/-- C4: creating twice with the same value of a unique field yields one
success and one Conflict with HTTP status 400: a Create against a store
already containing the value of Hospital.name, User.username or User.email
fails with status 400 and inserts nothing, and in particular the second of
two Creates sharing the unique field fails that way after the first
succeeded. -/
theorem unique_field_double_create_conflict :
    (∀ (db : DB) (i : HospitalCreate), (∃ x, x ∈ db.hospitals ∧ x.name = i.name) →
      ∃ e, create_hospital db i = .error e ∧ e.status_code = 400) ∧
    (∀ (db : DB) (i1 i2 : HospitalCreate) (db2 : DB) (c : Nat) (r : HospitalResponse),
      i2.name = i1.name → create_hospital db i1 = .ok (db2, c, r) →
      ∃ e, create_hospital db2 i2 = .error e ∧ e.status_code = 400) ∧
    (∀ (db : DB) (i : UserCreate), (∃ x, x ∈ db.users ∧ x.username = i.username) →
      ∃ e, create_user db i = .error e ∧ e.status_code = 400) ∧
    (∀ (db : DB) (i : UserCreate), (∃ x, x ∈ db.users ∧ x.email = i.email) →
      ∃ e, create_user db i = .error e ∧ e.status_code = 400) ∧
    (∀ (db : DB) (i1 i2 : UserCreate) (db2 : DB) (c : Nat) (r : UserResponse),
      i2.username = i1.username → create_user db i1 = .ok (db2, c, r) →
      ∃ e, create_user db2 i2 = .error e ∧ e.status_code = 400) ∧
    (∀ (db : DB) (i1 i2 : UserCreate) (db2 : DB) (c : Nat) (r : UserResponse),
      i2.email = i1.email → create_user db i1 = .ok (db2, c, r) →
      ∃ e, create_user db2 i2 = .error e ∧ e.status_code = 400) := by
  refine ⟨?_, ?_, ?_, ?_, ?_, ?_⟩
  · intro db i hx
    exact ⟨_, create_hospital_conflict hx, rfl⟩
  · intro db i1 i2 db2 c r hn hok
    obtain ⟨-, hdb2, -, -⟩ := create_hospital_ok_inv hok
    subst hdb2
    refine ⟨_, create_hospital_conflict ?_, rfl⟩
    exact ⟨⟨nextHospitalId db, i1.name, i1.address, db.now⟩, by simp, hn.symm⟩
  · intro db i hx
    exact create_user_conflict (Or.inl hx)
  · intro db i hx
    exact create_user_conflict (Or.inr hx)
  · intro db i1 i2 db2 c r hn hok
    obtain ⟨-, -, hdb2, -, -⟩ := create_user_ok_inv hok
    subst hdb2
    refine create_user_conflict (Or.inl ?_)
    exact ⟨⟨nextUserId db, i1.username, i1.full_name, i1.email,
      get_password_hash i1.password, i1.role_id⟩, by simp, hn.symm⟩
  · intro db i1 i2 db2 c r hn hok
    obtain ⟨-, -, hdb2, -, -⟩ := create_user_ok_inv hok
    subst hdb2
    refine create_user_conflict (Or.inr ?_)
    exact ⟨⟨nextUserId db, i1.username, i1.full_name, i1.email,
      get_password_hash i1.password, i1.role_id⟩, by simp, hn.symm⟩

/-- C4 witness: concrete double creates on the empty store, one per unique
field, each second call failing with status 400. -/
theorem unique_field_double_create_conflict_witness :
    ((⟨1, "A", "addr", 0⟩ : HospitalRow) ∈ dbH.hospitals ∧
     ∃ e, create_hospital dbH ⟨"A", "other"⟩ = .error e ∧ e.status_code = 400) ∧
    (create_hospital emptyDB ⟨"A", "addr"⟩ = .ok (dbH, 201, ⟨1, "A", "addr", 0⟩) ∧
     ∃ e, create_hospital dbH ⟨"A", "addr2"⟩ = .error e ∧ e.status_code = 400) ∧
    ((⟨1, "bob", "Bob B", "b(at)x", "$2b$pw", none⟩ : UserRow) ∈ dbU.users ∧
     ∃ e, create_user dbU ⟨"bob", "Other", "other(at)x", none, false, "q"⟩ = .error e ∧
       e.status_code = 400) ∧
    ((⟨1, "bob", "Bob B", "b(at)x", "$2b$pw", none⟩ : UserRow) ∈ dbU.users ∧
     ∃ e, create_user dbU ⟨"carol", "Carol C", "b(at)x", none, false, "q"⟩ = .error e ∧
       e.status_code = 400) ∧
    (create_user emptyDB ⟨"bob", "Bob B", "b(at)x", none, false, "pw"⟩ =
       .ok (dbU, 201, ⟨1, "bob", "Bob B", "b(at)x", none, none⟩) ∧
     ∃ e, create_user dbU ⟨"bob", "Other", "c(at)x", none, false, "q"⟩ = .error e ∧
       e.status_code = 400) ∧
    (create_user emptyDB ⟨"bob", "Bob B", "b(at)x", none, false, "pw"⟩ =
       .ok (dbU, 201, ⟨1, "bob", "Bob B", "b(at)x", none, none⟩) ∧
     ∃ e, create_user dbU ⟨"dave", "Dave D", "b(at)x", none, false, "q"⟩ = .error e ∧
       e.status_code = 400) :=
  ⟨⟨by decide, unique_field_double_create_conflict.1 dbH ⟨"A", "other"⟩
      ⟨⟨1, "A", "addr", 0⟩, by decide, rfl⟩⟩,
   ⟨by decide, unique_field_double_create_conflict.2.1 emptyDB ⟨"A", "addr"⟩ ⟨"A", "addr2"⟩
      dbH 201 ⟨1, "A", "addr", 0⟩ rfl (by decide)⟩,
   ⟨by decide, unique_field_double_create_conflict.2.2.1 dbU
      ⟨"bob", "Other", "other(at)x", none, false, "q"⟩
      ⟨⟨1, "bob", "Bob B", "b(at)x", "$2b$pw", none⟩, by decide, rfl⟩⟩,
   ⟨by decide, unique_field_double_create_conflict.2.2.2.1 dbU
      ⟨"carol", "Carol C", "b(at)x", none, false, "q"⟩
      ⟨⟨1, "bob", "Bob B", "b(at)x", "$2b$pw", none⟩, by decide, rfl⟩⟩,
   ⟨by decide, unique_field_double_create_conflict.2.2.2.2.1 emptyDB
      ⟨"bob", "Bob B", "b(at)x", none, false, "pw"⟩ ⟨"bob", "Other", "c(at)x", none, false, "q"⟩
      dbU 201 ⟨1, "bob", "Bob B", "b(at)x", none, none⟩ rfl (by decide)⟩,
   ⟨by decide, unique_field_double_create_conflict.2.2.2.2.2 emptyDB
      ⟨"bob", "Bob B", "b(at)x", none, false, "pw"⟩ ⟨"dave", "Dave D", "b(at)x", none, false, "q"⟩
      dbU 201 ⟨1, "bob", "Bob B", "b(at)x", none, none⟩ rfl (by decide)⟩⟩

/-- C9 witness: a concrete successful update on the one-hospital store,
with the created_at column unchanged. -/
theorem hospital_created_at_immutable_under_update_witness :
    update_hospital dbH 1 ⟨"B", "elsewhere"⟩ =
      .ok (⟨[⟨1, "B", "elsewhere", 0⟩], [], [], [], 0⟩, 200, ⟨1, "B", "elsewhere", 0⟩) ∧
    (⟨[⟨1, "B", "elsewhere", 0⟩], [], [], [], 0⟩ : DB).hospitals.map (fun x => (x.id, x.created_at)) =
      dbH.hospitals.map (fun x => (x.id, x.created_at)) :=
  ⟨by decide, hospital_created_at_immutable_under_update dbH 1 ⟨"B", "elsewhere"⟩
    ⟨[⟨1, "B", "elsewhere", 0⟩], [], [], [], 0⟩ 200 ⟨1, "B", "elsewhere", 0⟩ (by decide)⟩

end HMS
